import Mathlib

/-!
Verification development for the VB-to-C# migration tool.

The TypeScript sources are shallowly embedded: strings are Lean `String`,
JavaScript `RegExp` literals become values of the inductive `RE` below, and
`String.prototype.replace` with a global regex becomes `replaceAllS`, a
left-to-right scan performing non-overlapping substitution exactly as the
ECMAScript algorithm does (leftmost match, greedy/lazy backtracking,
capture groups, `undefined` for non-participating groups).  All functions
are fuel-indexed where the source recursion is unbounded; the fuel is
always generous enough that concrete runs below never exhaust it.
-/

/-! ## Character classes (ECMAScript semantics, ASCII fragment)

The inputs manipulated by the tool are ASCII program text, so the ASCII
fragment of the ECMAScript character classes is modelled. -/

def isSpaceC (c : Char) : Bool :=
  c = ' ' || c = '\t' || c = '\n' || c = '\r' || c = (Char.ofNat 11) || c = (Char.ofNat 12)

def isWordC (c : Char) : Bool :=
  (c ≥ 'a' && c ≤ 'z') || (c ≥ 'A' && c ≤ 'Z') || (c ≥ '0' && c ≤ '9') || c = '_'

def isDigitC (c : Char) : Bool :=
  c ≥ '0' && c ≤ '9'

inductive CharCls where
  | space : CharCls            -- \s
  | word : CharCls             -- \w
  | digit : CharCls            -- \d
  | dot : CharCls              -- .  (anything except a line terminator)
  | anyNL : CharCls            -- [\s\S]
  | notIn : List Char → CharCls -- [^…]
deriving Repr

def clsMatch : CharCls → Char → Bool
  | .space, c => isSpaceC c
  | .word, c => isWordC c
  | .digit, c => isDigitC c
  | .dot, c => !(c = '\n' || c = '\r')
  | .anyNL, _ => true
  | .notIn s, c => !(s.contains c)

/-! ## Regular expressions -/

inductive RE where
  | eps : RE
  | lit : Char → RE            -- literal character
  | litCI : Char → RE          -- literal character, case-insensitive (the i flag)
  | cls : CharCls → RE
  | cat : RE → RE → RE
  | alt : RE → RE → RE         -- ordered alternation
  | grp : Nat → RE → RE        -- capturing group number n (1-based)
  | rep : RE → Bool → RE       -- star; the Bool is true for lazy (*?)
  | opt : RE → RE              -- greedy ?
  | wb : RE                    -- \b
  | bol : RE                   -- ^ with the m flag
  | eol : RE                   -- $ with the m flag
  | look : RE → RE             -- (?= …) positive lookahead
deriving Repr

def rcat : List RE → RE
  | [] => .eps
  | [r] => r
  | r :: rs => .cat r (rcat rs)

/-- A sequence of literal characters. -/
def rlit (s : String) : RE := rcat (s.data.map RE.lit)

/-- A sequence of case-insensitive literal characters. -/
def rlitCI (s : String) : RE := rcat (s.data.map RE.litCI)

def rplus (r : RE) : RE := .cat r (.rep r false)       -- X+
def rplusL (r : RE) : RE := .cat r (.rep r true)       -- X+?
def sp1 : RE := rplus (.cls .space)                     -- \s+
def sp0 : RE := .rep (.cls .space) false                -- \s*
def wplus : RE := rplus (.cls .word)                    -- \w+
def ralts : List RE → RE
  | [] => .eps
  | [r] => r
  | r :: rs => .alt r (ralts rs)

def numGroups : RE → Nat
  | .eps | .lit _ | .litCI _ | .cls _ | .wb | .bol | .eol => 0
  | .cat a b => max (numGroups a) (numGroups b)
  | .alt a b => max (numGroups a) (numGroups b)
  | .grp n r => max n (numGroups r)
  | .rep r _ => numGroups r
  | .opt r => numGroups r
  | .look r => numGroups r

def reSize : RE → Nat
  | .eps | .lit _ | .litCI _ | .cls _ | .wb | .bol | .eol => 1
  | .cat a b => reSize a + reSize b + 1
  | .alt a b => reSize a + reSize b + 1
  | .grp _ r => reSize r + 1
  | .rep r _ => reSize r + 1
  | .opt r => reSize r + 1
  | .look r => reSize r + 1

/-! ## Backtracking matcher

`mtch` matches a regex against the remaining input in continuation-passing
style, reproducing the ECMAScript backtracking order (ordered alternation,
greedy and lazy quantifiers, last-capture-wins groups, and termination of
a quantifier on an empty iteration).  `prev` carries the previously
consumed character for the zero-width assertions.  The fuel bounds the
recursion depth; `mtchFuel` below always provides enough of it. -/

def lineTermC (c : Char) : Bool := c = '\n' || c = '\r'

def charEqCI (a b : Char) : Bool := a.toLower = b.toLower

abbrev Capture := Nat × Nat × Nat   -- (group, start position, end position)

abbrev MK := List Char → Nat → Option Char → List Capture → Option (Nat × List Capture)

def mtch : Nat → RE → List Char → Nat → Option Char → List Capture → MK →
    Option (Nat × List Capture)
  | 0, _, _, _, _, _, _ => none
  | _ + 1, .eps, rem, pos, prev, cp, k => k rem pos prev cp
  | _ + 1, .lit c, rem, pos, _, cp, k =>
      match rem with
      | [] => none
      | c₀ :: rest => if c₀ = c then k rest (pos + 1) (some c₀) cp else none
  | _ + 1, .litCI c, rem, pos, _, cp, k =>
      match rem with
      | [] => none
      | c₀ :: rest => if charEqCI c₀ c then k rest (pos + 1) (some c₀) cp else none
  | _ + 1, .cls s, rem, pos, _, cp, k =>
      match rem with
      | [] => none
      | c₀ :: rest => if clsMatch s c₀ then k rest (pos + 1) (some c₀) cp else none
  | f + 1, .cat a b, rem, pos, prev, cp, k =>
      mtch f a rem pos prev cp (fun rem₁ pos₁ prev₁ cp₁ => mtch f b rem₁ pos₁ prev₁ cp₁ k)
  | f + 1, .alt a b, rem, pos, prev, cp, k =>
      match mtch f a rem pos prev cp k with
      | some v => some v
      | none => mtch f b rem pos prev cp k
  | f + 1, .grp n r, rem, pos, prev, cp, k =>
      mtch f r rem pos prev cp (fun rem₁ pos₁ prev₁ cp₁ => k rem₁ pos₁ prev₁ ((n, pos, pos₁) :: cp₁))
  | f + 1, .rep r lz, rem, pos, prev, cp, k =>
      let one : Option (Nat × List Capture) :=
        mtch f r rem pos prev cp (fun rem₁ pos₁ prev₁ cp₁ =>
          if pos₁ = pos then none else mtch f (.rep r lz) rem₁ pos₁ prev₁ cp₁ k)
      if lz then
        match k rem pos prev cp with
        | some v => some v
        | none => one
      else
        match one with
        | some v => some v
        | none => k rem pos prev cp
  | f + 1, .opt r, rem, pos, prev, cp, k =>
      match mtch f r rem pos prev cp k with
      | some v => some v
      | none => k rem pos prev cp
  | _ + 1, .wb, rem, pos, prev, cp, k =>
      let pw := match prev with | some c => isWordC c | none => false
      let cw := match rem with | c :: _ => isWordC c | [] => false
      if pw ≠ cw then k rem pos prev cp else none
  | _ + 1, .bol, rem, pos, prev, cp, k =>
      match prev with
      | none => k rem pos prev cp
      | some c => if lineTermC c then k rem pos prev cp else none
  | _ + 1, .eol, rem, pos, prev, cp, k =>
      match rem with
      | [] => k rem pos prev cp
      | c :: _ => if lineTermC c then k rem pos prev cp else none
  | f + 1, .look r, rem, pos, prev, cp, k =>
      match mtch f r rem pos prev cp (fun _ pos₁ _ cp₁ => some (pos₁, cp₁)) with
      | some _ => k rem pos prev cp
      | none => none

/-- Fuel sufficient for any match attempt of `re` on a residual input. -/
def mtchFuel (re : RE) (len : Nat) : Nat := (len + reSize re + 8) * 4

/-- Attempt a match of `re` exactly at the given state; returns the end
position and the captures of the ECMAScript-preferred match. -/
def matchAt (re : RE) (rem : List Char) (pos : Nat) (prev : Option Char) :
    Option (Nat × List Capture) :=
  mtch (mtchFuel re rem.length) re rem pos prev [] (fun _ pos₁ _ cp₁ => some (pos₁, cp₁))

/-- First match at or after the current state, scanning left to right:
returns (start, end, captures). -/
def findFrom : RE → List Char → Nat → Option Char → Option (Nat × Nat × List Capture)
  | re, rem, pos, prev =>
    match matchAt re rem pos prev with
    | some (e, cp) => some (pos, e, cp)
    | none =>
      match rem with
      | [] => none
      | c :: rest => findFrom re rest (pos + 1) (some c)

/-- Does the regex match anywhere in the string?  (`RegExp.prototype.test`.) -/
def reTest (re : RE) (s : String) : Bool :=
  (findFrom re s.data 0 none).isSome

/-! ## Substring and replacement machinery -/

/-- The characters of the input between two positions. -/
def sliceL (full : List Char) (s e : Nat) : List Char := (full.drop s).take (e - s)

def sliceS (full : List Char) (s e : Nat) : String := String.mk (sliceL full s e)

/-- The value of capture group `n` (1-based) from the recorded captures:
`none` models a non-participating group (JavaScript `undefined`). -/
def capVal (full : List Char) (cp : List Capture) (n : Nat) : Option String :=
  match cp.find? (fun c => c.1 = n) with
  | some (_, s, e) => some (sliceS full s e)
  | none => none

/-- The groups array handed to a replacement: entry i holds group i+1. -/
def capsOf (full : List Char) (cp : List Capture) (ng : Nat) : List (Option String) :=
  (List.range ng).map (fun i => capVal full cp (i + 1))

/-- Replacement templates: `$n` references become `.g n`. -/
inductive TPart where
  | s : String → TPart
  | g : Nat → TPart

/-- Render a `String.replace` template: a referenced group that did not
participate in the match contributes the empty string. -/
def renderT (t : List TPart) (gs : List (Option String)) : String :=
  t.foldl (fun acc p =>
    match p with
    | .s str => acc ++ str
    | .g n => acc ++ (((gs.get? (n - 1)).getD none).getD "")) ""

/-- Reading an entry of the groups array (out of range is `undefined`). -/
def gv (gs : List (Option String)) (i : Nat) : Option String := (gs.get? i).getD none

/-- Interpolating a possibly-undefined value into a template string prints
`undefined`, as JavaScript template literals do. -/
def jsShow (o : Option String) : String := o.getD "undefined"

/-- JavaScript `a || d` for a possibly-undefined string (empty is falsy). -/
def jsOrStr (o : Option String) (d : String) : String :=
  match o with
  | some s => if s = "" then d else s
  | none => d

/-- JavaScript truthiness of a possibly-undefined string. -/
def jsTruthy (o : Option String) : Bool :=
  match o with
  | some s => s ≠ ""
  | none => false

/-- Global replacement, `String.prototype.replace` with the g flag:
scan left to right, substitute every non-overlapping match, and advance
past empty matches by one character. -/
def replGo (interp : String → List (Option String) → String) (re : RE) (ng : Nat)
    (full : List Char) : Nat → List Char → Nat → Option Char → String → String
  | 0, rem, _, _, acc => acc ++ String.mk rem
  | fγ + 1, rem, pos, prev, acc =>
    match findFrom re rem pos prev with
    | none => acc ++ String.mk rem
    | some (s, e, cp) =>
      let pre := String.mk (sliceL full pos s)
      let matched := sliceS full s e
      let rendered := interp matched (capsOf full cp ng)
      let rem₁ := full.drop s
      if e > s then
        replGo interp re ng full fγ (full.drop e) e
          (if e = 0 then none else full.get? (e - 1)) (acc ++ pre ++ rendered)
      else
        match rem₁ with
        | [] => acc ++ pre ++ rendered
        | c :: rest =>
          replGo interp re ng full fγ rest (s + 1) (some c)
            (acc ++ pre ++ rendered ++ String.mk [c])

def replaceAllS (re : RE) (interp : String → List (Option String) → String) (s : String) :
    String :=
  replGo interp re (numGroups re) s.data (s.data.length + 1) s.data 0 none ""

/-- Non-global first-match replacement is not needed; first-match group
extraction (`String.prototype.match` without g) is. -/
def firstMatch (re : RE) (s : String) : Option (String × List (Option String)) :=
  match findFrom re s.data 0 none with
  | none => none
  | some (st, e, cp) => some (sliceS s.data st e, capsOf s.data cp (numGroups re))

/-- All matches in scan order (`RegExp.prototype.exec` loop over a g regex). -/
def allMatches (re : RE) (s : String) : List (String × List (Option String)) :=
  let ng := numGroups re
  let full := s.data
  let rec go : Nat → List Char → Nat → Option Char → List (String × List (Option String))
    | 0, _, _, _ => []
    | fγ + 1, rem, pos, prev =>
      match findFrom re rem pos prev with
      | none => []
      | some (st, e, cp) =>
        let m := (sliceS full st e, capsOf full cp ng)
        if e > st then
          m :: go fγ (full.drop e) e (if e = 0 then none else full.get? (e - 1))
        else
          match full.drop st with
          | [] => [m]
          | c :: rest => m :: go fγ rest (st + 1) (some c)
  go (full.length + 1) full 0 none

/-! ## JavaScript string helpers -/

/-- `String.prototype.trim` (ASCII whitespace fragment). -/
def jsTrim (s : String) : String :=
  String.mk (((s.data.dropWhile isSpaceC).reverse.dropWhile isSpaceC).reverse)

def splitCL (sep : Char) : List Char → List (List Char)
  | [] => [[]]
  | c :: rest =>
    let r := splitCL sep rest
    if c = sep then [] :: r
    else
      match r with
      | h :: t => (c :: h) :: t
      | [] => [[c]]

/-- Split on a single character, `String.prototype.split`. -/
def jsSplitC (sep : Char) (s : String) : List String :=
  (splitCL sep s.data).map String.mk

def containsSubL (sub : List Char) : List Char → Bool
  | [] => sub.isEmpty
  | c :: rest => sub.isPrefixOf (c :: rest) || containsSubL sub rest

/-- `String.prototype.includes`. -/
def containsSub (s sub : String) : Bool :=
  containsSubL sub.data s.data

/-- `String.prototype.endsWith`. -/
def endsWithS (s suf : String) : Bool := suf.data.isSuffixOf s.data

def splitNL (s : String) : List String := jsSplitC '\n' s

def joinNL (l : List String) : String := String.intercalate "\n" l

/-! ## Baseline rules engine (src/migration/rules-engine.ts)

`MigrationRule.replacement` is either a template string or a closure; the
five closures of the default rule set call back into `convertMethodBody`
(and hence into `applyRules`), so they are represented by tags interpreted
inside the mutual block below, reproducing each closure body verbatim —
including the destructuring `const [, a, b, …] = groups`, which skips the
first captured group because the array being destructured is the rest
parameter `groups`, not the full match array. -/

inductive MigCond where
  | contains : String → MigCond
  | notContains : String → MigCond
  | fileExtension : String → MigCond
  | projType : String → MigCond

inductive BRepl where
  | tmpl : List TPart → BRepl
  | methodWithBody : BRepl
  | eventHandler : BRepl
  | forLoop : BRepl
  | tryCatch : BRepl
  | propBlock : BRepl

structure Rule where
  id : String
  category : String
  priority : Nat
  pattern : RE
  replacement : BRepl
  conditions : Option (List MigCond) := none

/-- `MigrationContext`; the engine reads only filePath, fileContent and
projectType.  Sets and maps are carried as lists. -/
structure MigCtx where
  filePath : String
  fileContent : String
  projType : String
  targetFramework : String
  usings : List String := []
  varTypes : List (String × String) := []    -- the variables map
  funTypes : List (String × String) := []    -- the functions map

def condHolds (ctx : MigCtx) : MigCond → Bool
  | .contains v => containsSub ctx.fileContent v
  | .notContains v => !containsSub ctx.fileContent v
  | .fileExtension v => endsWithS ctx.filePath v
  | .projType v => ctx.projType == v

/-- `shouldApplyRule`: absent conditions mean the rule always applies; the
source loop returns false on the first failing condition. -/
def shouldApplyRule (r : Rule) (ctx : MigCtx) : Bool :=
  match r.conditions with
  | none => true
  | some cs => cs.all (condHolds ctx)

/-- `mapAccessibility` of MigrationRulesEngine. -/
def mapAccessibility (vb : String) : String :=
  (([("Private", "private"), ("Public", "public"), ("Protected", "protected"),
     ("Friend", "internal")] : List (String × String)).lookup vb).getD "private"

/-- `map[vbAccessibility]` on an undefined key falls through to private. -/
def mapAccessibilityO (vb : Option String) : String :=
  match vb with
  | some s => mapAccessibility s
  | none => "private"

/-- `mapDataType` of MigrationRulesEngine; an unknown type is returned
unchanged. -/
def mapDataType (vb : String) : String :=
  (([("Integer", "int"), ("String", "string"), ("Boolean", "bool"),
     ("Double", "double"), ("Single", "float"), ("Long", "long"),
     ("Decimal", "decimal"), ("Date", "DateTime"), ("Object", "object")] :
    List (String × String)).lookup vb).getD vb

/-- `map[vbType] || vbType` evaluated at an undefined argument yields
undefined again. -/
def mapDataTypeO (vb : Option String) : Option String :=
  match vb with
  | some s => some (mapDataType s)
  | none => none

/-- The first-match parameter pattern (\w+)\s+As\s+(\w+). -/
def paramRE : RE := rcat [.grp 1 wplus, sp1, rlit "As", sp1, .grp 2 wplus]

/-- `convertParameters`: split on commas, rewrite name-As-type pairs. -/
def convertParameters (vbParams : Option String) : String :=
  match vbParams with
  | none => ""
  | some ps =>
    if jsTrim ps = "" then ""
    else
      String.intercalate ", " ((jsSplitC ',' ps).map (fun param =>
        let trimmed := jsTrim param
        match firstMatch paramRE trimmed with
        | some (_, gs) => mapDataType (jsShow (gv gs 1)) ++ " " ++ jsShow (gv gs 0)
        | none => trimmed))

/-- `convertEventParameters` discards the declared list entirely. -/
def convertEventParameters (_vbParams : Option String) : String :=
  "object sender, EventArgs e"

/-! The twenty default rule patterns, in declaration order. -/

-- /Dim\s+(\w+)\s+As\s+(\w+)/g
def reDimDecl : RE := rcat [rlit "Dim", sp1, .grp 1 wplus, sp1, rlit "As", sp1, .grp 2 wplus]

-- /Dim\s+(\w+)\s+As\s+New\s+(\w+)\s*\((.*?)\)/g
def reNewObject : RE :=
  rcat [rlit "Dim", sp1, .grp 1 wplus, sp1, rlit "As", sp1, rlit "New", sp1,
    .grp 2 wplus, sp0, .lit '(', .grp 3 (.rep (.cls .dot) true), .lit ')']

-- /If\s+(.+?)\s+Then/g
def reIfThen : RE := rcat [rlit "If", sp1, .grp 1 (rplusL (.cls .dot)), sp1, rlit "Then"]

-- /ElseIf\s+(.+?)\s+Then/g
def reElseIf : RE := rcat [rlit "ElseIf", sp1, .grp 1 (rplusL (.cls .dot)), sp1, rlit "Then"]

-- /End If/g
def reEndIf : RE := rlit "End If"

-- /\bString\b/g , /\bInteger\b/g , /\bBoolean\b/g
def reStringT : RE := rcat [.wb, rlit "String", .wb]
def reIntegerT : RE := rcat [.wb, rlit "Integer", .wb]
def reBooleanT : RE := rcat [.wb, rlit "Boolean", .wb]

-- /\s+&\s+/g
def reConcat : RE := rcat [sp1, .lit '&', sp1]

-- /\bAnd\b/g , /\bOr\b/g , /\bNot\s+/g
def reAnd : RE := rcat [.wb, rlit "And", .wb]
def reOr : RE := rcat [.wb, rlit "Or", .wb]
def reNot : RE := rcat [.wb, rlit "Not", sp1]

-- /MsgBox\s*\(/g
def reMsgBox : RE := rcat [rlit "MsgBox", sp0, .lit '(']

-- the comment rule, with the m flag: caret, group of \s*, then a single quote
def reComment : RE := rcat [.bol, .grp 1 sp0, .lit (Char.ofNat 39)]

def reAccess4 : RE := ralts [rlit "Private", rlit "Public", rlit "Protected", rlit "Friend"]
def reSubFun : RE := .alt (rlit "Sub") (rlit "Function")

-- /(Private|Public|Protected|Friend)\s+(Sub|Function)\s+(\w+)\s*\((.*?)\)(\s+As\s+(\w+))?\s*\n([\s\S]*?)\nEnd\s+(Sub|Function)/gm
def reMethodBody : RE :=
  rcat [.grp 1 reAccess4, sp1, .grp 2 reSubFun, sp1, .grp 3 wplus, sp0, .lit '(',
    .grp 4 (.rep (.cls .dot) true), .lit ')',
    .opt (.grp 5 (rcat [sp1, rlit "As", sp1, .grp 6 wplus])), sp0, .lit '\n',
    .grp 7 (.rep (.cls .anyNL) true), .lit '\n', rlit "End", sp1, .grp 8 reSubFun]

-- /(Private|Public)\s+Sub\s+(\w+)_(\w+)\s*\(([^)]*)\)\s+Handles\s+([^.\n]+)\.([^.\n]+)\s*\n([\s\S]*?)\nEnd Sub/gm
def reEventHandler : RE :=
  rcat [.grp 1 (.alt (rlit "Private") (rlit "Public")), sp1, rlit "Sub", sp1,
    .grp 2 wplus, .lit '_', .grp 3 wplus, sp0, .lit '(',
    .grp 4 (.rep (.cls (.notIn [')'])) false), .lit ')', sp1, rlit "Handles", sp1,
    .grp 5 (rplus (.cls (.notIn ['.', '\n']))), .lit '.',
    .grp 6 (rplus (.cls (.notIn ['.', '\n']))), sp0, .lit '\n',
    .grp 7 (.rep (.cls .anyNL) true), .lit '\n', rlit "End Sub"]

-- /For\s+(\w+)\s+As\s+(\w+)\s+=\s+(.+?)\s+To\s+(.+?)(?:\s+Step\s+(.+?))?\s*\n([\s\S]*?)\nNext/gm
def reForLoop : RE :=
  rcat [rlit "For", sp1, .grp 1 wplus, sp1, rlit "As", sp1, .grp 2 wplus, sp1,
    .lit '=', sp1, .grp 3 (rplusL (.cls .dot)), sp1, rlit "To", sp1,
    .grp 4 (rplusL (.cls .dot)), .opt (rcat [sp1, rlit "Step", sp1, .grp 5 (rplusL (.cls .dot))]),
    sp0, .lit '\n', .grp 6 (.rep (.cls .anyNL) true), .lit '\n', rlit "Next"]

-- /Try\s*\n([\s\S]*?)\nCatch\s+(\w+)\s+As\s+(\w+)\s*\n([\s\S]*?)\nEnd Try/gm
def reTryCatch : RE :=
  rcat [rlit "Try", sp0, .lit '\n', .grp 1 (.rep (.cls .anyNL) true), .lit '\n',
    rlit "Catch", sp1, .grp 2 wplus, sp1, rlit "As", sp1, .grp 3 wplus, sp0, .lit '\n',
    .grp 4 (.rep (.cls .anyNL) true), .lit '\n', rlit "End Try"]

-- /(Private|Public|Protected)\s+Property\s+(\w+)\s*\(\)\s+As\s+(\w+)\s*\n\s*Get\s*\n([\s\S]*?)\n\s*End Get\s*\n\s*Set\s*\(([^)]+)\)\s*\n([\s\S]*?)\n\s*End Set\s*\nEnd Property/gm
def rePropBlock : RE :=
  rcat [.grp 1 (ralts [rlit "Private", rlit "Public", rlit "Protected"]), sp1,
    rlit "Property", sp1, .grp 2 wplus, sp0, rlit "()", sp1, rlit "As", sp1,
    .grp 3 wplus, sp0, .lit '\n', sp0, rlit "Get", sp0, .lit '\n',
    .grp 4 (.rep (.cls .anyNL) true), .lit '\n', sp0, rlit "End Get", sp0, .lit '\n',
    sp0, rlit "Set", sp0, .lit '(', .grp 5 (rplus (.cls (.notIn [')']))), .lit ')', sp0,
    .lit '\n', .grp 6 (.rep (.cls .anyNL) true), .lit '\n', sp0, rlit "End Set", sp0,
    .lit '\n', rlit "End Property"]

-- /Dim\s+(\w+)\s+As\s+New\s+SqlCommand\s*\(\s*"([^"]+)"\s*,\s*(\w+)\s*\)/g
def reSqlCommand : RE :=
  rcat [rlit "Dim", sp1, .grp 1 wplus, sp1, rlit "As", sp1, rlit "New", sp1,
    rlit "SqlCommand", sp0, .lit '(', sp0, .lit (Char.ofNat 34),
    .grp 2 (rplus (.cls (.notIn [Char.ofNat 34]))), .lit (Char.ofNat 34), sp0, .lit ',',
    sp0, .grp 3 wplus, sp0, .lit ')']

/-- The default rule set built by the engine constructor, in declaration
order (id, category, priority, pattern, replacement; none has conditions,
and the example lists carry no behaviour). -/
def defaultRules : List Rule := [
  { id := "vb-dim-declaration", category := "Syntax", priority := 10,
    pattern := reDimDecl, replacement := .tmpl [.g 2, .s " ", .g 1] },
  { id := "vb-new-object", category := "Syntax", priority := 10,
    pattern := reNewObject,
    replacement := .tmpl [.s "var ", .g 1, .s " = new ", .g 2, .s "(", .g 3, .s ")"] },
  { id := "vb-if-then", category := "Syntax", priority := 9,
    pattern := reIfThen, replacement := .tmpl [.s "if (", .g 1, .s ")"] },
  { id := "vb-elseif", category := "Syntax", priority := 9,
    pattern := reElseIf, replacement := .tmpl [.s "else if (", .g 1, .s ")"] },
  { id := "vb-end-if", category := "Syntax", priority := 8,
    pattern := reEndIf, replacement := .tmpl [.s "\x7d"] },
  { id := "vb-string-type", category := "DataTypes", priority := 9,
    pattern := reStringT, replacement := .tmpl [.s "string"] },
  { id := "vb-integer-type", category := "DataTypes", priority := 9,
    pattern := reIntegerT, replacement := .tmpl [.s "int"] },
  { id := "vb-boolean-type", category := "DataTypes", priority := 9,
    pattern := reBooleanT, replacement := .tmpl [.s "bool"] },
  { id := "vb-string-concat", category := "Syntax", priority := 8,
    pattern := reConcat, replacement := .tmpl [.s " + "] },
  { id := "vb-logical-and", category := "Syntax", priority := 8,
    pattern := reAnd, replacement := .tmpl [.s "&&"] },
  { id := "vb-logical-or", category := "Syntax", priority := 8,
    pattern := reOr, replacement := .tmpl [.s "||"] },
  { id := "vb-logical-not", category := "Syntax", priority := 8,
    pattern := reNot, replacement := .tmpl [.s "!"] },
  { id := "vb-msgbox", category := "Functions", priority := 7,
    pattern := reMsgBox, replacement := .tmpl [.s "MessageBox.Show("] },
  { id := "vb-comments", category := "Syntax", priority := 5,
    pattern := reComment, replacement := .tmpl [.g 1, .s "//"] },
  { id := "vb-method-with-body", category := "Functions", priority := 10,
    pattern := reMethodBody, replacement := .methodWithBody },
  { id := "vb-event-handler-complete", category := "Patterns", priority := 10,
    pattern := reEventHandler, replacement := .eventHandler },
  { id := "vb-for-loop-complete", category := "Patterns", priority := 9,
    pattern := reForLoop, replacement := .forLoop },
  { id := "vb-try-catch", category := "Patterns", priority := 9,
    pattern := reTryCatch, replacement := .tryCatch },
  { id := "vb-property-complete", category := "Patterns", priority := 9,
    pattern := rePropBlock, replacement := .propBlock },
  { id := "vb-sql-command", category := "Framework", priority := 8,
    pattern := reSqlCommand,
    replacement := .tmpl [.s "using var ", .g 1, .s " = new SqlCommand(\x22", .g 2,
      .s "\x22, ", .g 3, .s ")"] }]

/-! ## Sorting

`this.rules.sort((a, b) => b.priority - a.priority)` — `Array.prototype.sort`
is guaranteed stable by ECMAScript 2019, so it is embedded as a stable
insertion sort by descending priority: an element is inserted after every
earlier-declared element of strictly greater or equal priority. -/

def ordInsertP {α : Type} (prio : α → Nat) (a : α) : List α → List α
  | [] => [a]
  | b :: l => if prio a < prio b then b :: ordInsertP prio a l else a :: b :: l

def sortByPrioDesc {α : Type} (prio : α → Nat) : List α → List α
  | [] => []
  | a :: l => ordInsertP prio a (sortByPrioDesc prio l)

def sortRules (rules : List Rule) : List Rule := sortByPrioDesc (·.priority) rules

/-! ## applyRules and the recursive closures

`applyRules` folds the sorted rules over the text; each closure replacement
calls `convertMethodBody`, which calls `applyRules` again on the captured
body.  That unbounded recursion is embedded by making only the closure
interpreter `interpBF` recursive, structurally on a fuel counter; the
engine entry points are obtained by instantiating the parameterized
helpers with the interpreter one fuel level down.  The `appliedRules`
bookkeeping of the source only feeds a console log and does not affect
the returned text. -/

abbrev BInterp := BRepl → String → List (Option String) → String

/-- The body of `applyRules`, parameterized by the closure interpreter:
sort by priority, then run every rule whose conditions hold over the
current text, each output feeding the next rule. -/
def applyRulesWith (interp : BInterp) (rules : List Rule) (content : String)
    (ctx : MigCtx) : String :=
  (sortRules rules).foldl
    (fun acc r =>
      if shouldApplyRule r ctx then replaceAllS r.pattern (interp r.replacement) acc else acc)
    content

/-- The body of `convertMethodBody`: an absent or blank body yields the
placeholder; otherwise the whole default rule set is applied to the body
under a fresh WinForms context and non-blank result lines are indented by
four spaces. -/
def convertMethodBodyWith (interp : BInterp) (vbBody : Option String) : String :=
  match vbBody with
  | none => "    // TODO: Implement method logic"
  | some b =>
    if jsTrim b = "" then "    // TODO: Implement method logic"
    else
      let ctx : MigCtx :=
        { filePath := "", fileContent := b, projType := "WinForms",
          targetFramework := "net8.0" }
      let csBody := applyRulesWith interp defaultRules b ctx
      joinNL ((splitNL csBody).map (fun line => if jsTrim line = "" then line else "    " ++ line))

/-- The interpreter of the five closure replacements of the default rule
set, each clause transcribing the corresponding TypeScript closure —
including the destructuring offset described above.  Fuel zero models the
otherwise unbounded recursion through `convertMethodBody`. -/
def interpBF : Nat → BInterp
  | _, .tmpl t, _, gs => renderT t gs
  | 0, _, _, _ => ""
  | f + 1, .methodWithBody, _, gs =>
    -- const [, accessibility, methodType, methodName, parameters, , returnType, body] = groups
    let accessibility := gv gs 1
    let methodType := gv gs 2
    let methodName := gv gs 3
    let parameters := gv gs 4
    let returnType := gv gs 6
    let body := gv gs 7
    let csAccessibility := mapAccessibilityO accessibility
    let csReturnType := if methodType = some "Function" then jsOrStr returnType "object" else "void"
    let csParameters := convertParameters parameters
    let csBody := convertMethodBodyWith (fun r m g => interpBF f r m g) body
    csAccessibility ++ " " ++ csReturnType ++ " " ++ jsShow methodName ++ "(" ++
      csParameters ++ ")\n\x7b\n" ++ csBody ++ "\n\x7d"
  | f + 1, .eventHandler, _, gs =>
    -- const [, accessibility, controlName, eventName, parameters, , , body] = groups
    let controlName := gv gs 2
    let eventName := gv gs 3
    let parameters := gv gs 4
    let body := gv gs 7
    let csBody := convertMethodBodyWith (fun r m g => interpBF f r m g) body
    let csParameters := convertEventParameters parameters
    "private void " ++ jsShow controlName ++ "_" ++ jsShow eventName ++ "(" ++
      csParameters ++ ")\n\x7b\n" ++ csBody ++ "\n\x7d"
  | f + 1, .forLoop, _, gs =>
    -- const [, variable, type, start, end, step, body] = groups
    let variab := gv gs 1
    let vtype := gv gs 2
    let start := gv gs 3
    let stop := gv gs 4
    let step := gv gs 5
    let body := gv gs 6
    let csType := mapDataTypeO vtype
    let csStep := if jsTruthy step then " += " ++ jsShow step else "++"
    let csBody := convertMethodBodyWith (fun r m g => interpBF f r m g) body
    "for (" ++ jsShow csType ++ " " ++ jsShow variab ++ " = " ++ jsShow start ++ "; " ++
      jsShow variab ++ " <= " ++ jsShow stop ++ "; " ++ jsShow variab ++ csStep ++
      ")\n\x7b\n" ++ csBody ++ "\n\x7d"
  | f + 1, .tryCatch, _, gs =>
    -- const [, tryBody, exceptionVar, exceptionType, catchBody] = groups
    let tryBody := gv gs 1
    let exceptionVar := gv gs 2
    let exceptionType := gv gs 3
    let catchBody := gv gs 4
    "try\n\x7b\n" ++ convertMethodBodyWith (fun r m g => interpBF f r m g) tryBody ++
      "\n\x7d\ncatch (" ++ jsShow exceptionType ++ " " ++ jsShow exceptionVar ++
      ")\n\x7b\n" ++ convertMethodBodyWith (fun r m g => interpBF f r m g) catchBody ++ "\n\x7d"
  | f + 1, .propBlock, _, gs =>
    -- const [, accessibility, propName, propType, getterBody, setterParam, setterBody] = groups
    let accessibility := gv gs 1
    let propName := gv gs 2
    let propType := gv gs 3
    let getterBody := gv gs 4
    let setterBody := gv gs 6
    let csAccessibility := mapAccessibilityO accessibility
    let csType := mapDataTypeO propType
    let csGetterBody := convertMethodBodyWith (fun r m g => interpBF f r m g) getterBody
    let csSetterBody := convertMethodBodyWith (fun r m g => interpBF f r m g) setterBody
    csAccessibility ++ " " ++ jsShow csType ++ " " ++ jsShow propName ++
      "\n\x7b\n    get\n    \x7b\n" ++ csGetterBody ++
      "\n    \x7d\n    set\n    \x7b\n" ++ csSetterBody ++ "\n    \x7d\n\x7d"

/-- `applyRule`: both branches of the source perform the same global
`content.replace(rule.pattern, rule.replacement)`; the context parameter
is not read. -/
def applyRuleF (f : Nat) (r : Rule) (content : String) : String :=
  replaceAllS r.pattern (interpBF f r.replacement) content

/-- `applyRules` at fuel f. -/
def applyRulesF (f : Nat) (rules : List Rule) (content : String) (ctx : MigCtx) : String :=
  applyRulesWith (interpBF f) rules content ctx

/-- `convertMethodBody` at fuel f. -/
def convertMethodBodyF (f : Nat) (vbBody : Option String) : String :=
  convertMethodBodyWith (interpBF f) vbBody

/-! ## The error-aware closure semantics

`String.prototype.replace` invokes a replacement function with
`(matched, p1 .. pn, offset, string)`, so the rest parameter of the
closures is `groups = [p1 .. pn, offset, string]`: an index equal to the
pattern's group count reads the numeric match offset, one past it reads
the whole subject string, and only indices beyond that are `undefined`.
Four closures destructure past their capture groups
(vb-event-handler-complete reads groups[7] of 7 groups,
vb-for-loop-complete groups[6] of 6, vb-try-catch groups[4] of 4,
vb-property-complete groups[6] of 6) and hand the numeric offset to
`convertMethodBody`, whose `!vbBody` guard lets 0 fall to the placeholder
but whose `vbBody.trim()` throws a TypeError for any other number; the
throw aborts the whole `applyRules` call.  `interpBF` above is the total
approximation that reads every out-of-range entry as `undefined`; the
definitions below model the argument array and the thrown TypeError
exactly. -/

/-- A value of the callback's argument array: a participating capture is
a string, a non-participating one `undefined`, and the trailing pair is
the numeric offset and the subject string. -/
inductive JArg where
  | str : String → JArg
  | undefined : JArg
  | num : Nat → JArg

/-- `groups[i]` of the array `[p1 .. pn, offset, string]`. -/
def argAt (caps : List (Option String)) (offset : Nat) (full : String)
    (i : Nat) : JArg :=
  if i < caps.length then
    match caps.get? i with
    | some (some s) => .str s
    | _ => .undefined
  else if i = caps.length then .num offset
  else if i = caps.length + 1 then .str full
  else .undefined

/-- The closure interpreter with the thrown TypeError made explicit:
arguments are the replacement, the matched span, the capture list, the
match offset and the subject string. -/
abbrev BInterpE := BRepl → String → List (Option String) → Nat → String →
  Except String String

/-- Global replacement whose callback may throw: the first throwing
callback (in match order) aborts the whole replacement. -/
def replGoE (interp : String → List (Option String) → Nat → Except String String)
    (re : RE) (ng : Nat) (full : List Char) :
    Nat → List Char → Nat → Option Char → String → Except String String
  | 0, rem, _, _, acc => .ok (acc ++ String.mk rem)
  | fγ + 1, rem, pos, prev, acc =>
    match findFrom re rem pos prev with
    | none => .ok (acc ++ String.mk rem)
    | some (s, e, cp) =>
      let pre := String.mk (sliceL full pos s)
      let matched := sliceS full s e
      match interp matched (capsOf full cp ng) s with
      | .error err => .error err
      | .ok rendered =>
        if e > s then
          replGoE interp re ng full fγ (full.drop e) e
            (if e = 0 then none else full.get? (e - 1)) (acc ++ pre ++ rendered)
        else
          match full.drop s with
          | [] => .ok (acc ++ pre ++ rendered)
          | c :: rest =>
            replGoE interp re ng full fγ rest (s + 1) (some c)
              (acc ++ pre ++ rendered ++ String.mk [c])

def replaceAllSE (re : RE)
    (interp : String → List (Option String) → Nat → Except String String)
    (s : String) : Except String String :=
  replGoE interp re (numGroups re) s.data (s.data.length + 1) s.data 0 none ""

/-- `applyRule` under the error-aware semantics: the callback closes over
the subject string of the replace call. -/
def applyRuleWithE (interp : BInterpE) (r : Rule) (content : String) :
    Except String String :=
  replaceAllSE r.pattern (fun m caps off => interp r.replacement m caps off content)
    content

/-- The body of `applyRules` under the error-aware semantics: the for
loop is a fold that a thrown step aborts. -/
def applyRulesWithE (interp : BInterpE) (rules : List Rule) (content : String)
    (ctx : MigCtx) : Except String String :=
  (sortRules rules).foldl
    (fun acc r =>
      match acc with
      | .error e => .error e
      | .ok t => if shouldApplyRule r ctx then applyRuleWithE interp r t else .ok t)
    (.ok content)

/-- `convertMethodBody` on an argument-array value: `undefined` and the
falsy number 0 take the placeholder branch, any other number throws
(`vbBody.trim` is not a function), and a string is processed by the
recursive rule application, whose own throw propagates. -/
def convertMethodBodyWithE (interp : BInterpE) (vbBody : JArg) :
    Except String String :=
  match vbBody with
  | .undefined => .ok "    // TODO: Implement method logic"
  | .num 0 => .ok "    // TODO: Implement method logic"
  | .num (_ + 1) => .error "TypeError: vbBody.trim is not a function"
  | .str b =>
    if jsTrim b = "" then .ok "    // TODO: Implement method logic"
    else
      let ctx : MigCtx :=
        { filePath := "", fileContent := b, projType := "WinForms",
          targetFramework := "net8.0" }
      match applyRulesWithE interp defaultRules b ctx with
      | .error e => .error e
      | .ok csBody =>
        .ok (joinNL ((splitNL csBody).map
          (fun line => if jsTrim line = "" then line else "    " ++ line)))

/-- The faithful interpreter of the five closure replacements: the
destructured indices are read from the argument array `[p1 .. pn, offset,
string]` via `argAt`, so the four out-of-range body reads hit the numeric
offset and `convertMethodBody` throws whenever such a rule matches at a
nonzero offset. -/
def interpBFE : Nat → BInterpE
  | _, .tmpl t, _, caps, _, _ => .ok (renderT t caps)
  | 0, _, _, _, _, _ => .ok ""
  | f + 1, .methodWithBody, _, caps, offset, full =>
    -- const [, accessibility, methodType, methodName, parameters, , returnType, body]
    -- 8 capture groups: every read is still a capture (body = groups[7] = p8)
    let accessibility := gv caps 1
    let methodType := gv caps 2
    let methodName := gv caps 3
    let parameters := gv caps 4
    let returnType := gv caps 6
    let body := argAt caps offset full 7
    let csAccessibility := mapAccessibilityO accessibility
    let csReturnType := if methodType = some "Function" then jsOrStr returnType "object" else "void"
    let csParameters := convertParameters parameters
    match convertMethodBodyWithE (fun r m c o s => interpBFE f r m c o s) body with
    | .error e => .error e
    | .ok csBody =>
      .ok (csAccessibility ++ " " ++ csReturnType ++ " " ++ jsShow methodName ++ "(" ++
        csParameters ++ ")\n\x7b\n" ++ csBody ++ "\n\x7d")
  | f + 1, .eventHandler, _, caps, offset, full =>
    -- const [, accessibility, controlName, eventName, parameters, , , body]
    -- 7 capture groups: body = groups[7] = the numeric match offset
    let controlName := gv caps 2
    let eventName := gv caps 3
    let parameters := gv caps 4
    let body := argAt caps offset full 7
    match convertMethodBodyWithE (fun r m c o s => interpBFE f r m c o s) body with
    | .error e => .error e
    | .ok csBody =>
      .ok ("private void " ++ jsShow controlName ++ "_" ++ jsShow eventName ++ "(" ++
        convertEventParameters parameters ++ ")\n\x7b\n" ++ csBody ++ "\n\x7d")
  | f + 1, .forLoop, _, caps, offset, full =>
    -- const [, variable, type, start, end, step, body]
    -- 6 capture groups: body = groups[6] = the numeric match offset
    let variab := gv caps 1
    let vtype := gv caps 2
    let start := gv caps 3
    let stop := gv caps 4
    let step := gv caps 5
    let body := argAt caps offset full 6
    let csType := mapDataTypeO vtype
    let csStep := if jsTruthy step then " += " ++ jsShow step else "++"
    match convertMethodBodyWithE (fun r m c o s => interpBFE f r m c o s) body with
    | .error e => .error e
    | .ok csBody =>
      .ok ("for (" ++ jsShow csType ++ " " ++ jsShow variab ++ " = " ++ jsShow start ++
        "; " ++ jsShow variab ++ " <= " ++ jsShow stop ++ "; " ++ jsShow variab ++
        csStep ++ ")\n\x7b\n" ++ csBody ++ "\n\x7d")
  | f + 1, .tryCatch, _, caps, offset, full =>
    -- const [, tryBody, exceptionVar, exceptionType, catchBody]
    -- 4 capture groups: catchBody = groups[4] = the numeric match offset
    let tryBody := argAt caps offset full 1
    let exceptionVar := gv caps 2
    let exceptionType := gv caps 3
    let catchBody := argAt caps offset full 4
    match convertMethodBodyWithE (fun r m c o s => interpBFE f r m c o s) tryBody with
    | .error e => .error e
    | .ok csTryBody =>
      match convertMethodBodyWithE (fun r m c o s => interpBFE f r m c o s) catchBody with
      | .error e => .error e
      | .ok csCatchBody =>
        .ok ("try\n\x7b\n" ++ csTryBody ++ "\n\x7d\ncatch (" ++ jsShow exceptionType ++
          " " ++ jsShow exceptionVar ++ ")\n\x7b\n" ++ csCatchBody ++ "\n\x7d")
  | f + 1, .propBlock, _, caps, offset, full =>
    -- const [, accessibility, propName, propType, getterBody, setterParam, setterBody]
    -- 6 capture groups: setterBody = groups[6] = the numeric match offset
    let accessibility := gv caps 1
    let propName := gv caps 2
    let propType := gv caps 3
    let getterBody := argAt caps offset full 4
    let setterBody := argAt caps offset full 6
    let csAccessibility := mapAccessibilityO accessibility
    let csType := mapDataTypeO propType
    match convertMethodBodyWithE (fun r m c o s => interpBFE f r m c o s) getterBody with
    | .error e => .error e
    | .ok csGetterBody =>
      match convertMethodBodyWithE (fun r m c o s => interpBFE f r m c o s) setterBody with
      | .error e => .error e
      | .ok csSetterBody =>
        .ok (csAccessibility ++ " " ++ jsShow csType ++ " " ++ jsShow propName ++
          "\n\x7b\n    get\n    \x7b\n" ++ csGetterBody ++
          "\n    \x7d\n    set\n    \x7b\n" ++ csSetterBody ++ "\n    \x7d\n\x7d")

/-- `applyRules` under the error-aware semantics at fuel f. -/
def applyRulesEF (f : Nat) (rules : List Rule) (content : String) (ctx : MigCtx) :
    Except String String :=
  applyRulesWithE (interpBFE f) rules content ctx

/-! ## Enhanced rules engine (src/migration/enhanced-rules-engine.ts)

Its replacement closures call only pure helpers, so they are embedded as
plain Lean closures; `preProcess`/`postProcess` hooks are optional
whole-text functions. -/

inductive ERepl where
  | tmpl : List TPart → ERepl
  | fn : (String → List (Option String) → String) → ERepl

structure EnhRule where
  id : String
  category : String
  priority : Nat
  pattern : RE
  replacement : ERepl
  pre : Option (String → String) := none
  post : Option (String → String) := none

/-- `mapAccessibility` of EnhancedMigrationEngine. -/
def enMapAccessibility (vb : String) : String :=
  (([("Private", "private"), ("Public", "public"), ("Protected", "protected"),
     ("Friend", "internal")] : List (String × String)).lookup vb).getD "private"

/-- `mapDataType` of EnhancedMigrationEngine (no Decimal entry). -/
def enMapDataType (vb : String) : String :=
  (([("String", "string"), ("Integer", "int"), ("Boolean", "bool"),
     ("Double", "double"), ("Single", "float"), ("Long", "long"),
     ("Date", "DateTime"), ("Object", "object")] :
    List (String × String)).lookup vb).getD vb

/-- `convertParameters` of EnhancedMigrationEngine. -/
def enConvertParameters (vbParams : Option String) : String :=
  match vbParams with
  | none => ""
  | some ps =>
    if jsTrim ps = "" then ""
    else
      String.intercalate ", " ((jsSplitC ',' ps).map (fun param =>
        let trimmed := jsTrim param
        match firstMatch paramRE trimmed with
        | some (_, gs) => enMapDataType (jsShow (gv gs 1)) ++ " " ++ jsShow (gv gs 0)
        | none => trimmed))

/-- `getDefaultValue`; null for an unknown type. -/
def getDefaultValue (csType : String) : Option String :=
  ([("string", "\x22\x22"), ("int", "0"), ("bool", "false"),
    ("double", "0.0"), ("float", "0.0f")] : List (String × String)).lookup csType

/-- `mapMessageBoxIcon`. -/
def mapMessageBoxIcon (vbIcon : String) : String :=
  (([("vbInformation", "Information"), ("vbExclamation", "Warning"),
     ("vbCritical", "Error"), ("vbQuestion", "Question")] :
    List (String × String)).lookup vbIcon).getD "Information"

def toLowerS (s : String) : String := String.mk (s.data.map Char.toLower)

def dquote : Char := Char.ofNat 34

/-! The twelve enhanced rule patterns. -/

-- /(Private|Public|Protected|Friend)?\s*(Sub|Function)\s+(\w+)\s*\(([^)]*)\)(\s+As\s+(\w+))?\s*/g
def reEnhMethodDecl : RE :=
  rcat [.opt (.grp 1 reAccess4), sp0, .grp 2 reSubFun, sp1, .grp 3 wplus, sp0, .lit '(',
    .grp 4 (.rep (.cls (.notIn [')'])) false), .lit ')',
    .opt (.grp 5 (rcat [sp1, rlit "As", sp1, .grp 6 wplus])), sp0]

-- /Dim\s+(\w+)\s+As\s+(\w+)(\s*=\s*(.+?))?(?=\s*$|\s*\n)/gm
def reEnhDim : RE :=
  rcat [rlit "Dim", sp1, .grp 1 wplus, sp1, rlit "As", sp1, .grp 2 wplus,
    .opt (.grp 3 (rcat [sp0, .lit '=', sp0, .grp 4 (rplusL (.cls .dot))])),
    .look (.alt (.cat sp0 .eol) (.cat sp0 (.lit '\n')))]

def reElseTail : RE := ralts [rlit "ElseIf", rlit "Else", rlit "End If"]

-- /If\s+(.+?)\s+Then\s*\n([\s\S]*?)(?=\n\s*(?:ElseIf|Else|End If))/g
def reEnhIfBlock : RE :=
  rcat [rlit "If", sp1, .grp 1 (rplusL (.cls .dot)), sp1, rlit "Then", sp0, .lit '\n',
    .grp 2 (.rep (.cls .anyNL) true), .look (rcat [.lit '\n', sp0, reElseTail])]

-- /ElseIf\s+(.+?)\s+Then\s*\n([\s\S]*?)(?=\n\s*(?:ElseIf|Else|End If))/g
def reEnhElseIfBlock : RE :=
  rcat [rlit "ElseIf", sp1, .grp 1 (rplusL (.cls .dot)), sp1, rlit "Then", sp0, .lit '\n',
    .grp 2 (.rep (.cls .anyNL) true), .look (rcat [.lit '\n', sp0, reElseTail])]

-- /Else\s*\n([\s\S]*?)(?=\n\s*End If)/g
def reEnhElseBlock : RE :=
  rcat [rlit "Else", sp0, .lit '\n', .grp 1 (.rep (.cls .anyNL) true),
    .look (rcat [.lit '\n', sp0, rlit "End If"])]

-- /MsgBox\s+"([^"]+)"\s*,\s*(vb\w+)/g
def reEnhMsgBox : RE :=
  rcat [rlit "MsgBox", sp1, .lit dquote, .grp 1 (rplus (.cls (.notIn [dquote]))),
    .lit dquote, sp0, .lit ',', sp0, .grp 2 (.cat (rlit "vb") wplus)]

def reWordOrQuoted (n : Nat) : RE :=
  .grp n (.alt wplus (rcat [.lit dquote, .rep (.cls (.notIn [dquote])) false, .lit dquote]))

-- /(\w+|\"[^\"]*\")\s+&\s+(\w+|\"[^\"]*\")/g
def reEnhConcat : RE := rcat [reWordOrQuoted 1, sp1, .lit '&', sp1, reWordOrQuoted 2]

-- /\b(And|Or|Not)\b/g
def reEnhLogical : RE :=
  rcat [.wb, .grp 1 (ralts [rlit "And", rlit "Or", rlit "Not"]), .wb]

-- /\b(String|Integer|Boolean|Double|Single|Long|Date|Object)\b/g
def reEnhTypes : RE :=
  rcat [.wb, .grp 1 (ralts [rlit "String", rlit "Integer", rlit "Boolean", rlit "Double",
    rlit "Single", rlit "Long", rlit "Date", rlit "Object"]), .wb]

-- /Set\s+(\w+)\s+=\s+OpenDatabase\s*\(\s*"([^"]+)"\s*\)/g
def reEnhOpenDb : RE :=
  rcat [rlit "Set", sp1, .grp 1 wplus, sp1, .lit '=', sp1, rlit "OpenDatabase", sp0,
    .lit '(', sp0, .lit dquote, .grp 2 (rplus (.cls (.notIn [dquote]))), .lit dquote,
    sp0, .lit ')']

-- /Exit\s+(Sub|Function)/g
def reEnhExit : RE := rcat [rlit "Exit", sp1, .grp 1 reSubFun]

-- /(Form\d+)\.Show/g
def reEnhFormShow : RE :=
  rcat [.grp 1 (.cat (rlit "Form") (rplus (.cls .digit))), rlit ".Show"]

-- /\bMe\./g
def reEnhMe : RE := rcat [.wb, rlit "Me."]

/-- The postProcess hook of enhanced-if-then-else. -/
def enhIfPost (content : String) : String :=
  let c := replaceAllS reEnhElseIfBlock
    (fun _ gs => renderT [.s "else if (", .g 1, .s ")\n\x7b\n", .g 2, .s "\n\x7d"] gs) content
  let c := replaceAllS reEnhElseBlock
    (fun _ gs => renderT [.s "else\n\x7b\n", .g 1, .s "\n\x7d"] gs) c
  replaceAllS (rlit "End If") (fun _ _ => "") c

/-- The enhanced rule set, in declaration order. -/
def enhancedRules : List EnhRule := [
  { id := "enhanced-method-declaration", category := "BusinessLogic", priority := 100,
    pattern := reEnhMethodDecl,
    replacement := .fn (fun _ gs =>
      let accessibility := gv gs 0
      let methodType := gv gs 1
      let methodName := jsShow (gv gs 2)
      let parameters := gv gs 3
      let returnType := gv gs 5
      let csAccessibility := enMapAccessibility (jsOrStr accessibility "Private")
      let csReturnType :=
        if methodType = some "Function" then enMapDataType (jsOrStr returnType "object")
        else "void"
      let csParameters := enConvertParameters parameters
      if containsSub methodName "_" &&
          (containsSub methodName "Click" || containsSub methodName "Load" ||
           containsSub methodName "Change") then
        csAccessibility ++ " " ++ csReturnType ++ " " ++ methodName ++
          "(object sender, EventArgs e)"
      else
        csAccessibility ++ " " ++ csReturnType ++ " " ++ methodName ++ "(" ++
          csParameters ++ ")") },
  { id := "enhanced-dim-declaration", category := "Syntax", priority := 95,
    pattern := reEnhDim,
    replacement := .fn (fun _ gs =>
      let varName := jsShow (gv gs 0)
      let varType := jsShow (gv gs 1)
      let initValue := gv gs 3
      let csType := enMapDataType varType
      if jsTruthy initValue then csType ++ " " ++ varName ++ " = " ++ jsShow initValue
      else
        match getDefaultValue csType with
        | some d => if d = "" then csType ++ " " ++ varName else csType ++ " " ++ varName ++ " = " ++ d
        | none => csType ++ " " ++ varName) },
  { id := "enhanced-if-then-else", category := "Syntax", priority := 90,
    pattern := reEnhIfBlock,
    replacement := .tmpl [.s "if (", .g 1, .s ")\n\x7b\n", .g 2, .s "\n\x7d"],
    post := some enhIfPost },
  { id := "enhanced-msgbox", category := "Functions", priority := 85,
    pattern := reEnhMsgBox,
    replacement := .fn (fun _ gs =>
      let message := jsShow (gv gs 0)
      let vbIcon := jsShow (gv gs 1)
      let icon := mapMessageBoxIcon vbIcon
      "MessageBox.Show(\x22" ++ message ++ "\x22, \x22Mensaje\x22, MessageBoxButtons.OK, MessageBoxIcon." ++ icon ++ ")") },
  { id := "enhanced-string-concat", category := "Syntax", priority := 80,
    pattern := reEnhConcat, replacement := .tmpl [.g 1, .s " + ", .g 2] },
  { id := "enhanced-logical-operators", category := "Syntax", priority := 80,
    pattern := reEnhLogical,
    replacement := .fn (fun _ gs =>
      let operator := jsShow (gv gs 0)
      ((([("And", "&&"), ("Or", "||"), ("Not", "!")] : List (String × String)).lookup
        operator).getD operator)) },
  { id := "enhanced-data-types", category := "DataTypes", priority := 75,
    pattern := reEnhTypes,
    replacement := .fn (fun _ gs => enMapDataType (jsShow (gv gs 0))) },
  { id := "enhanced-database-ops", category := "Framework", priority := 70,
    pattern := reEnhOpenDb,
    replacement := .tmpl [.s "using var ", .g 1,
      .s " = new OleDbConnection(\x22Provider=Microsoft.ACE.OLEDB.12.0;Data Source=",
      .g 2, .s "\x22)"] },
  { id := "enhanced-exit-statements", category := "Syntax", priority := 65,
    pattern := reEnhExit, replacement := .tmpl [.s "return"] },
  { id := "enhanced-form-operations", category := "Controls", priority := 60,
    pattern := reEnhFormShow,
    replacement := .fn (fun _ gs =>
      let formName := jsShow (gv gs 0)
      let l := toLowerS formName
      "var " ++ l ++ " = new " ++ formName ++ "(); " ++ l ++ ".Show()") },
  { id := "enhanced-me-reference", category := "Syntax", priority := 55,
    pattern := reEnhMe, replacement := .tmpl [.s "this."] },
  { id := "enhanced-comments", category := "Syntax", priority := 20,
    pattern := reComment, replacement := .tmpl [.g 1, .s "//"] }]

-- /\n\s*\n\s*\n/g and the blank-line pattern of preprocessContent
def reBlank3 : RE := rcat [.lit '\n', sp0, .lit '\n', sp0, .lit '\n']
def reBlankLine : RE := rcat [.bol, sp1, .eol]

/-- `preprocessContent`. -/
def preprocessContent (content : String) : String :=
  let r := replaceAllS reBlank3 (fun _ _ => "\n\n") content
  replaceAllS reBlankLine (fun _ _ => "") r

-- the three line tests of postProcessContent
def reDeclAssign : RE :=
  rcat [.bol, sp0, .grp 1 (ralts [rlit "string", rlit "int", rlit "bool", rlit "var"]),
    sp1, wplus, sp0, .lit '=']
def reAnyAssign : RE := rcat [.bol, sp0, wplus, sp0, .lit '=']
def reRetOrMsg : RE :=
  rcat [.bol, sp0, .grp 1 (.alt (rlit "return") (rlit "MessageBox.Show"))]

/-- `postProcessContent`: strip leftover VB terminators, trim and drop
blank lines, and append semicolons to recognized statement lines. -/
def postProcessContent (content : String) : String :=
  let r := replaceAllS (rlit "End if") (fun _ _ => "") content
  let r := replaceAllS (rlit "End If") (fun _ _ => "") r
  let r := replaceAllS (rlit "End Sub") (fun _ _ => "") r
  let r := replaceAllS (rlit "End Function") (fun _ _ => "") r
  let lines := ((splitNL r).map jsTrim).filter (fun l => l.length > 0)
  joinNL (lines.map (fun line =>
    if reTest reDeclAssign line && !endsWithS line ";" then line ++ ";"
    else if reTest reAnyAssign line && !endsWithS line ";" && !containsSub line "\x7b" &&
        !containsSub line "\x7d" then line ++ ";"
    else if reTest reRetOrMsg line && !endsWithS line ";" then line ++ ";"
    else line))

def interpE : ERepl → String → List (Option String) → String
  | .tmpl t, _, gs => renderT t gs
  | .fn g, m, gs => g m gs

def sortEnhRules (rules : List EnhRule) : List EnhRule := sortByPrioDesc (·.priority) rules

/-- `migrateVBtoCSharp` of EnhancedMigrationEngine: preprocess, apply the
rules in stable priority order with their hooks, then the final cleanup
pass.  The `appliedRulesCount` bookkeeping only feeds console logs. -/
def migrateVBtoCSharp (vbContent : String) (_filePath : String) : String :=
  let r := preprocessContent vbContent
  let r := (sortEnhRules enhancedRules).foldl
    (fun acc rule =>
      let acc := match rule.pre with | some p => p acc | none => acc
      let acc := replaceAllS rule.pattern (interpE rule.replacement) acc
      match rule.post with | some p => p acc | none => acc)
    r
  postProcessContent r

/-! ## C# generator (src/generators/csharp-generator.ts), conversion layer -/

structure VBParameterP where
  name : String
  type : String
  isOptional : Bool := false
  defaultValue : Option String := none
  byRef : Bool := false

structure VBEventP where
  name : String
  handler : String
  parameters : List VBParameterP := []
  body : Option String := none

structure VBMethodP where
  name : String
  returnType : String
  parameters : List VBParameterP := []
  isPublic : Bool := false
  isStatic : Bool := false
  body : String := ""
  isOverridable : Bool := false
  isOverrides : Bool := false

structure CSharpParameterC where
  name : String
  type : String
  isOptional : Bool
  defaultValue : Option String := none
  isOut : Bool := false
  isRef : Bool := false

structure CSharpMethodC where
  name : String
  returnType : String
  parameters : List CSharpParameterC
  accessModifier : String
  isStatic : Bool
  isAsync : Bool
  isVirtual : Bool
  isOverride : Bool
  body : String

/-- `mapVBTypeToCSharp` of CSharpGenerator; a missing or empty type falls
back to object, an unknown one is kept. -/
def genMapVBType (vbType : Option String) : String :=
  match vbType with
  | none => "object"
  | some t =>
    if t = "" then "object"
    else
      (([("String", "string"), ("Integer", "int"), ("Long", "long"),
         ("Single", "float"), ("Double", "double"), ("Boolean", "bool"),
         ("Date", "DateTime"), ("Object", "object"), ("Variant", "object"),
         ("Currency", "decimal"), ("Byte", "byte"), ("Short", "short"),
         ("Nothing", "null"), ("System.Windows.Forms.Form", "Form"),
         ("System.Data.DataSet", "DataSet"), ("System.Data.DataTable", "DataTable")] :
        List (String × String)).lookup t).getD t

/-- `detectAsyncPattern`. -/
def detectAsyncPattern (vbCode : String) : Bool :=
  containsSub vbCode "Await" || containsSub vbCode "Task" || containsSub vbCode "Async"

/-- The backup conversion table of `applyBasicConversions`, in source
order; every replacement is a template string. -/
def basicConversions : List (RE × List TPart) := [
  (rcat [rlit "Dim", sp1, .grp 1 wplus, sp0, .eol], [.s "var ", .g 1]),
  (rlit "vbCrLf", [.s "Environment.NewLine"]),
  (rlit "vbTab", [.s "\x22\\t\x22"]),
  (rlit "vbNullString", [.s "string.Empty"]),
  (rcat [sp0, .lit '=', sp0, rlit "Nothing"], [.s " == null"]),
  (rcat [sp0, rlit "<>", sp0], [.s " != "]),
  (rcat [rlit "Len", sp0, .lit '('], [.s ".Length("]),
  (rcat [rlit "UCase", sp0, .lit '('], [.s ".ToUpper("]),
  (rcat [rlit "LCase", sp0, .lit '('], [.s ".ToLower("]),
  (rcat [rlit "Trim", sp0, .lit '('], [.s ".Trim("]),
  (rcat [rlit "Left", sp0, .lit '(', .grp 1 (rplus (.cls (.notIn [',']))), .lit ',', sp0,
    .grp 2 (rplus (.cls .digit)), .lit ')'], [.g 1, .s ".Substring(0, ", .g 2, .s ")"]),
  (rcat [rlit "Right", sp0, .lit '(', .grp 1 (rplus (.cls (.notIn [',']))), .lit ',', sp0,
    .grp 2 (rplus (.cls .digit)), .lit ')'],
    [.g 1, .s ".Substring(", .g 1, .s ".Length - ", .g 2, .s ")"]),
  (rcat [rlit "Mid", sp0, .lit '(', .grp 1 (rplus (.cls (.notIn [',']))), .lit ',', sp0,
    .grp 2 (rplus (.cls .digit)), .lit ')'], [.g 1, .s ".Substring(", .g 2, .s " - 1)"]),
  (rcat [rlit "Mid", sp0, .lit '(', .grp 1 (rplus (.cls (.notIn [',']))), .lit ',', sp0,
    .grp 2 (rplus (.cls .digit)), .lit ',', sp0, .grp 3 (rplus (.cls .digit)), .lit ')'],
    [.g 1, .s ".Substring(", .g 2, .s " - 1, ", .g 3, .s ")"]),
  (rcat [rlit "Select", sp1, rlit "Case", sp1, .grp 1 (rplus (.cls .dot))],
    [.s "switch (", .g 1, .s ")"]),
  (rcat [rlit "Case", sp1, .grp 1 (rplus (.cls .dot))], [.s "case ", .g 1, .s ":"]),
  (rcat [rlit "Case", sp1, rlit "Else"], [.s "default:"]),
  (rlit "End Select", [.s "\x7d"]),
  (rcat [rlit "Exit", sp1, rlit "Sub"], [.s "return;"]),
  (rcat [rlit "Exit", sp1, rlit "Function"], [.s "return;"]),
  (rcat [rlit "Exit", sp1, rlit "For"], [.s "break;"]),
  (rlit ".Text", [.s ".Text"]),
  (rlit ".Caption", [.s ".Text"]),
  (rlit ".Value", [.s ".Value"]),
  (rcat [rlit "On", sp1, rlit "Error", sp1, rlit "Resume", sp1, rlit "Next"],
    [.s "// TODO: Handle errors appropriately"]),
  (rcat [rlit "On", sp1, rlit "Error", sp1, rlit "GoTo", sp1, .lit '0'],
    [.s "// TODO: Reset error handling"])]

/-- `applyBasicConversions`. -/
def applyBasicConversions (vbCode : String) : String :=
  basicConversions.foldl (fun acc rt => replaceAllS rt.1 (fun _ gs => renderT rt.2 gs) acc) vbCode

/-- The body of `convertVBCodeToCSharp`, parameterized by the enhanced
migration entry point (the two functions are mutually recursive in the
source); the context it builds is never read. -/
def convertVBCodeToCSharpWith (migrate : String → String → String) (vbCode : String) : String :=
  if vbCode = "" then "// TODO: Implement method body"
  else
    let csharpCode := migrate vbCode "general.vb"
    let csharpCode := if csharpCode.length < 10 then applyBasicConversions vbCode else csharpCode
    "// Migrated from VB.NET\n" ++ csharpCode

/-- `migrateVBCodeWithEnhancedEngine`: blank input returns the
placeholder; otherwise try the enhanced engine, fall back to the baseline
engine, and finally to `convertVBCodeToCSharp`.  The latter calls back
into this function, an unbounded mutual recursion modelled by the fuel
(the source would in fact recurse without bound on inputs that no engine
changes); nothing in the embedded pipeline throws, so the catch branch is
unreachable. -/
def migrateVBCodeWithEnhancedEngineF : Nat → String → String → String
  | f, vbCode, filePath =>
    if jsTrim vbCode = "" then "// TODO: Implement method logic"
    else
      let enhancedResult := migrateVBtoCSharp vbCode filePath
      if enhancedResult.length > 10 && enhancedResult ≠ vbCode then enhancedResult
      else
        let ctx : MigCtx :=
          { filePath := filePath, fileContent := vbCode, projType := "WinForms",
            targetFramework := "net8.0", usings := ["System", "System.Windows.Forms"] }
        let originalResult := applyRulesF f defaultRules vbCode ctx
        if originalResult = vbCode then
          match f with
          | 0 => vbCode
          | fγ + 1 =>
            convertVBCodeToCSharpWith (fun c p => migrateVBCodeWithEnhancedEngineF fγ c p) vbCode
        else originalResult

def convertVBCodeToCSharpF (f : Nat) (vbCode : String) : String :=
  convertVBCodeToCSharpWith (fun c p => migrateVBCodeWithEnhancedEngineF f c p) vbCode

/-- `convertVBParameterToCSharp`. -/
def convertVBParameterToCSharp (p : VBParameterP) : CSharpParameterC :=
  { name := p.name, type := genMapVBType (some p.type), isOptional := p.isOptional,
    defaultValue := p.defaultValue, isRef := p.byRef, isOut := false }

/-- `convertVBMethodToCSharp`: the migration context it builds is never
read; an empty or blank body produces the method placeholder. -/
def convertVBMethodToCSharpF (f : Nat) (m : VBMethodP) : CSharpMethodC :=
  let methodBody :=
    if m.body ≠ "" && jsTrim m.body ≠ "" then
      migrateVBCodeWithEnhancedEngineF f m.body (m.name ++ ".vb")
    else "// TODO: Implement method body"
  { name := m.name, returnType := genMapVBType (some m.returnType),
    parameters := m.parameters.map convertVBParameterToCSharp,
    accessModifier := if m.isPublic then "public" else "private",
    isStatic := m.isStatic, isAsync := detectAsyncPattern m.body,
    isVirtual := m.isOverridable, isOverride := m.isOverrides, body := methodBody }

/-- `convertVBEventToCSharpMethod`: the generated handler is always a
private void method with the fixed (object sender, EventArgs e) parameter
list; only the body depends on the event. -/
def convertVBEventToCSharpMethodF (f : Nat) (vbEvent : VBEventP) : CSharpMethodC :=
  let methodBody :=
    match vbEvent.body with
    | some b =>
      if jsTrim b ≠ "" then migrateVBCodeWithEnhancedEngineF f b (vbEvent.handler ++ ".vb")
      else "// TODO: Implement event handler logic"
    | none => "// TODO: Implement event handler logic"
  { name := vbEvent.handler, returnType := "void",
    parameters := [
      { name := "sender", type := "object", isOptional := false },
      { name := "e", type := "EventArgs", isOptional := false }],
    accessModifier := "private", isStatic := false, isAsync := false,
    isVirtual := false, isOverride := false, body := methodBody }

/-! ## Module migrator (src/analyzers/module-migrator.ts)

`migrateModule` reads the original file, dispatches on the target
architecture to build the generated-file list, optionally appends test
scaffolds, then writes everything to disk and fills in a summary.  The
pure file-generation core is embedded as `migrateModuleFiles`; disk
writes and the summary/success bookkeeping do not affect which files are
generated.  Only the analysis fields this code reads are carried. -/

structure DBOperation where
  type : String          -- Select | Insert | Update | Delete | Connection
  query : String := ""

structure MMParameter where
  name : String
  type : String

structure MMMethod where
  name : String
  returnType : String := "void"
  parameters : List MMParameter := []
  visibility : String := "Public"
  body : String := ""

structure MMEvent where
  name : String
  eventType : String := ""
  body : String := ""

structure MMVariable where
  name : String
  type : String := "Variant"
  scope : String := "Module"
  visibility : String := "Private"

structure BusinessLogicA where
  databaseOperations : List DBOperation := []
  calculations : List String := []
  validations : List String := []

structure VBModuleAnalysisM where
  fileName : String
  filePath : String := ""
  moduleType : String           -- Form | Module | Class
  moduleVars : List MMVariable := []   -- the variables field
  methods : List MMMethod := []
  events : List MMEvent := []
  businessLogic : BusinessLogicA := {}

structure GeneratedFile where
  path : String
  type : String        -- Model | Service | Controller | View | ViewModel | Repository | Test
  purpose : String
  content : String
  sourceModule : String

structure MigOptions where
  generateTests : Bool := true
  modernizePatterns : Bool := true
  targetFramework : String := "net8.0"

/-! path helpers (`path.basename` / `path.extname` on forward slashes) -/

def basenameS (p : String) : String :=
  ((jsSplitC '/' p).getLast?).getD p

def lastDotIdx (l : List Char) : Option Nat :=
  (List.range l.length).foldl (fun acc i => if l.get? i = some '.' then some i else acc) none

def extnameS (p : String) : String :=
  let b := (basenameS p).data
  match lastDotIdx b with
  | some j => if j = 0 then "" else String.mk (b.drop j)
  | none => ""

/-- `path.basename(p, ext)`: strip the extension when it is a proper
suffix of the base name. -/
def baseNoExt (p : String) : String :=
  let b := basenameS p
  let e := extnameS p
  if e ≠ "" && endsWithS b e && b ≠ e then String.mk (b.data.take (b.data.length - e.data.length))
  else b

def replaceFirstSubL (pat repl : List Char) : List Char → List Char
  | [] => []
  | c :: rest =>
    if pat.isPrefixOf (c :: rest) then repl ++ (c :: rest).drop pat.length
    else c :: replaceFirstSubL pat repl rest

/-- `String.prototype.replace` with a plain string pattern replaces only
the first occurrence. -/
def replaceFirstSub (s pat repl : String) : String :=
  String.mk (replaceFirstSubL pat.data repl.data s.data)

/-- `generateNamespace`. -/
def generateNamespace (baseName : String) : String := "Company." ++ baseName

/-- `mapVBTypeToCSharp` of ModuleMigrator. -/
def mmMapVBType (vb : String) : String :=
  (([("String", "string"), ("Integer", "int"), ("Long", "long"),
     ("Double", "double"), ("Single", "float"), ("Boolean", "bool"),
     ("Date", "DateTime"), ("Variant", "object"), ("Object", "object")] :
    List (String × String)).lookup vb).getD vb

/-- `isBusinessLogicMethod`. -/
def isBusinessLogicMethod (m : MMMethod) : Bool :=
  containsSub m.body "Calculate" || containsSub m.body "Validate" ||
  containsSub m.body "Process" || containsSub m.body "If" || containsSub m.body "Select"

/-- `hasBusinessLogic`. -/
def hasBusinessLogic (a : VBModuleAnalysisM) : Bool :=
  a.businessLogic.calculations.length > 0 || a.businessLogic.validations.length > 0 ||
  a.businessLogic.databaseOperations.length > 0 || a.methods.any isBusinessLogicMethod

def generatePropertyMM (name type : String) : String :=
  "public " ++ type ++ " " ++ name ++ " \x7b get; set; \x7d"

def generateParameterList (params : List MMParameter) : String :=
  String.intercalate ", " (params.map (fun p => mmMapVBType p.type ++ " " ++ p.name))

/-- `migrateMeTODo` (the method-to-entity generator); the engine is called
with the nonexistent `method.filePath` field, which a default parameter
turns into the empty string. -/
def migrateMeTODo (m : MMMethod) : String :=
  let convertedBody := migrateVBtoCSharp m.body ""
  "public " ++ mmMapVBType m.returnType ++ " " ++ m.name ++ "(" ++
    generateParameterList m.parameters ++ ")\n        \x7b\n            " ++
    convertedBody ++ "\n        \x7d"

/-- `migrateMethodToService`. -/
def migrateMethodToService (m : MMMethod) (opts : MigOptions) : String :=
  let convertedBody := migrateVBtoCSharp m.body ""
  let returnType :=
    if opts.modernizePatterns then "async Task<" ++ mmMapVBType m.returnType ++ ">"
    else mmMapVBType m.returnType
  "public " ++ returnType ++ " " ++ m.name ++ "Async(" ++
    generateParameterList m.parameters ++ ")\n        \x7b\n            " ++
    convertedBody ++ "\n        \x7d"

def generateServiceDependencies (a : VBModuleAnalysisM) : String :=
  let deps : List String :=
    if a.businessLogic.databaseOperations.length > 0 then
      ["private readonly I" ++ baseNoExt a.fileName ++ "Repository _repository;"]
    else []
  String.intercalate "\n        " deps

def generateServiceConstructor (baseName deps : String) : String :=
  if deps = "" then "public " ++ baseName ++ "Service()\n        \x7b\n        \x7d"
  else
    "public " ++ baseName ++ "Service(I" ++ baseName ++
      "Repository repository)\n        \x7b\n            _repository = repository;\n        \x7d"

def generateRepositoryMethodSignature (op : DBOperation) : String :=
  if op.type = "Select" then "Task<IEnumerable<Entity>> GetAllAsync();"
  else if op.type = "Insert" then "Task<Entity> CreateAsync(Entity entity);"
  else if op.type = "Update" then "Task<Entity> UpdateAsync(Entity entity);"
  else if op.type = "Delete" then "Task DeleteAsync(int id);"
  else "Task ExecuteAsync(string query);"

/-- `generateRepositoryMethodImplementation`; the converted query it
computes first is never referenced by any branch. -/
def generateRepositoryMethodImplementation (op : DBOperation) : String :=
  if op.type = "Select" then
    "public async Task<IEnumerable<Entity>> GetAllAsync()\n        \x7b\n            return await _context.Entities.ToListAsync();\n        \x7d"
  else if op.type = "Insert" then
    "public async Task<Entity> CreateAsync(Entity entity)\n        \x7b\n            _context.Entities.Add(entity);\n            await _context.SaveChangesAsync();\n            return entity;\n        \x7d"
  else
    "public async Task ExecuteAsync(string query)\n        \x7b\n            // TODO: Implement " ++
      op.type ++ " operation\n            // Original query: " ++ op.query ++ "\n        \x7d"

/-- `generateControllerAction`. -/
def generateControllerAction (e : MMEvent) : String :=
  let convertedBody := migrateVBtoCSharp e.body ""
  let actionName := if e.eventType = "Load" then "Index" else replaceFirstSub e.name "_Click" ""
  "public IActionResult " ++ actionName ++ "()\n        \x7b\n            " ++
    convertedBody ++ "\n            return View();\n        \x7d"

def generateTestMethod (m : MMMethod) : String :=
  "[Fact]\n        public async Task " ++ m.name ++
    "_ShouldReturnExpectedResult()\n        \x7b\n            // Arrange\n            // TODO: Setup test data\n\n            // Act\n            var result = await _service." ++
    m.name ++ "Async();\n\n            // Assert\n            result.Should().NotBeNull();\n            // TODO: Add specific assertions\n        \x7d"

def generateViewModelProperty (name type : String) : String :=
  let l := toLowerS name
  "private " ++ type ++ " _" ++ l ++ ";\n        public " ++ type ++ " " ++ name ++
    "\n        \x7b\n            get => _" ++ l ++
    ";\n            set\n            \x7b\n                _" ++ l ++
    " = value;\n                OnPropertyChanged();\n            \x7d\n        \x7d"

def generateDomainEntity (a : VBModuleAnalysisM) (ns : String) : String :=
  let baseName := baseNoExt a.fileName
  let properties := String.intercalate "\n\n    "
    ((a.moduleVars.filter (fun v => v.visibility == "Public" || v.scope == "Module")).map
      (fun v => generatePropertyMM v.name (mmMapVBType v.type)))
  let businessMethods := String.intercalate "\n\n    "
    ((a.methods.filter (fun m => m.visibility == "Public")).map migrateMeTODo)
  "using System;\nusing System.ComponentModel.DataAnnotations;\n\nnamespace " ++ ns ++
    ".Domain.Entities\n\x7b\n    public class " ++ baseName ++
    "Entity\n    \x7b\n        " ++ properties ++ "\n\n        " ++ businessMethods ++
    "\n    \x7d\n\x7d"

def generateApplicationService (a : VBModuleAnalysisM) (ns : String) (opts : MigOptions) :
    String :=
  let baseName := baseNoExt a.fileName
  let serviceMethods := String.intercalate "\n\n        "
    (a.methods.map (fun m => migrateMethodToService m opts))
  let dependencies := generateServiceDependencies a
  let constructor := generateServiceConstructor baseName dependencies
  "using System;\nusing System.Threading.Tasks;\nusing " ++ ns ++
    ".Domain.Entities;\nusing " ++ ns ++ ".Application.Interfaces;\n\nnamespace " ++ ns ++
    ".Application.Services\n\x7b\n    public class " ++ baseName ++
    "Service\n    \x7b\n        " ++ dependencies ++ "\n\n        " ++ constructor ++
    "\n\n        " ++ serviceMethods ++ "\n    \x7d\n\x7d"

def generateRepositoryInterface (a : VBModuleAnalysisM) (ns : String) : String :=
  let baseName := baseNoExt a.fileName
  let methods := String.intercalate "\n        "
    (a.businessLogic.databaseOperations.map generateRepositoryMethodSignature)
  "using System;\nusing System.Collections.Generic;\nusing System.Threading.Tasks;\nusing " ++
    ns ++ ".Domain.Entities;\n\nnamespace " ++ ns ++
    ".Application.Interfaces\n\x7b\n    public interface I" ++ baseName ++
    "Repository\n    \x7b\n        " ++ methods ++ "\n    \x7d\n\x7d"

def generateRepositoryImplementation (a : VBModuleAnalysisM) (ns : String) : String :=
  let baseName := baseNoExt a.fileName
  let methods := String.intercalate "\n\n        "
    (a.businessLogic.databaseOperations.map generateRepositoryMethodImplementation)
  "using System;\nusing System.Collections.Generic;\nusing System.Linq;\nusing System.Threading.Tasks;\nusing Microsoft.EntityFrameworkCore;\nusing " ++
    ns ++ ".Domain.Entities;\nusing " ++ ns ++
    ".Application.Interfaces;\n\nnamespace " ++ ns ++
    ".Infrastructure.Repositories\n\x7b\n    public class " ++ baseName ++
    "Repository : I" ++ baseName ++
    "Repository\n    \x7b\n        private readonly ApplicationDbContext _context;\n\n        public " ++
    baseName ++
    "Repository(ApplicationDbContext context)\n        \x7b\n            _context = context;\n        \x7d\n\n        " ++
    methods ++ "\n    \x7d\n\x7d"

def generateControllerMM (a : VBModuleAnalysisM) (ns : String) : String :=
  let baseName := baseNoExt a.fileName
  let actions := String.intercalate "\n\n        "
    ((a.events.filter (fun e => e.eventType == "Click" || e.eventType == "Load")).map
      generateControllerAction)
  "using Microsoft.AspNetCore.Mvc;\nusing " ++ ns ++ ".Application.Services;\nusing " ++
    ns ++ ".Presentation.ViewModels;\n\nnamespace " ++ ns ++
    ".Presentation.Controllers\n\x7b\n    public class " ++ baseName ++
    "Controller : Controller\n    \x7b\n        private readonly " ++ baseName ++
    "Service _service;\n\n        public " ++ baseName ++ "Controller(" ++ baseName ++
    "Service service)\n        \x7b\n            _service = service;\n        \x7d\n\n        " ++
    actions ++ "\n    \x7d\n\x7d"

def generateViewModelMM (a : VBModuleAnalysisM) (ns : String) : String :=
  let baseName := baseNoExt a.fileName
  let properties := String.intercalate "\n\n        "
    ((a.moduleVars.filter (fun v => v.visibility == "Public")).map
      (fun v => generateViewModelProperty v.name (mmMapVBType v.type)))
  "using System.ComponentModel;\nusing System.ComponentModel.DataAnnotations;\n\nnamespace " ++
    ns ++ ".Presentation.ViewModels\n\x7b\n    public class " ++ baseName ++
    "ViewModel : INotifyPropertyChanged\n    \x7b\n        " ++ properties ++
    "\n\n        public event PropertyChangedEventHandler PropertyChanged;\n\n        protected virtual void OnPropertyChanged([CallerMemberName] string propertyName = null)\n        \x7b\n            PropertyChanged?.Invoke(this, new PropertyChangedEventArgs(propertyName));\n        \x7d\n    \x7d\n\x7d"

def generateUnitTests (a : VBModuleAnalysisM) (ns : String) : String :=
  let baseName := baseNoExt a.fileName
  let testMethods := String.intercalate "\n\n        "
    ((a.methods.filter isBusinessLogicMethod).map generateTestMethod)
  "using Xunit;\nusing Moq;\nusing FluentAssertions;\nusing " ++ ns ++
    ".Application.Services;\nusing " ++ ns ++ ".Domain.Entities;\n\nnamespace " ++ ns ++
    ".Tests.Unit\n\x7b\n    public class " ++ baseName ++
    "ServiceTests\n    \x7b\n        private readonly " ++ baseName ++
    "Service _service;\n        private readonly Mock<I" ++ baseName ++
    "Repository> _repositoryMock;\n\n        public " ++ baseName ++
    "ServiceTests()\n        \x7b\n            _repositoryMock = new Mock<I" ++ baseName ++
    "Repository>();\n            _service = new " ++ baseName ++
    "Service(_repositoryMock.Object);\n        \x7d\n\n        " ++ testMethods ++
    "\n    \x7d\n\x7d"

/-! Placeholder generators of the remaining architectures. -/

def generateBusinessLogicClass (a : VBModuleAnalysisM) : String :=
  "// Business logic class for " ++ a.fileName

def generateDataAccessClass (a : VBModuleAnalysisM) : String :=
  "// Data access class for " ++ a.fileName

def generatePresenter (a : VBModuleAnalysisM) : String :=
  "// Presenter class for " ++ a.fileName

def generateModelMM (a : VBModuleAnalysisM) : String :=
  "// Model class for " ++ a.fileName

def generateMVCController (a : VBModuleAnalysisM) : String :=
  "// MVC controller for " ++ a.fileName

def generateMVCViews (baseName : String) : List (String × String × String) :=
  [("Index", "Main view", "<!-- Main view for " ++ baseName ++ " -->")]

def generateMVVMViewModel (a : VBModuleAnalysisM) : String :=
  "// MVVM view model for " ++ a.fileName

def generateMVVMService (a : VBModuleAnalysisM) : String :=
  "// MVVM service for " ++ a.fileName

def generateXAMLView (baseName : String) : String :=
  "<!-- XAML view for " ++ baseName ++ " -->"

/-- `generateCleanArchitectureFiles`: entity when business logic exists,
the application service unconditionally, repository interface and
implementation when database operations exist, controller and view model
for forms. -/
def cleanArchFiles (a : VBModuleAnalysisM) (opts : MigOptions) : List GeneratedFile :=
  let baseName := baseNoExt a.fileName
  let ns := generateNamespace baseName
  (if hasBusinessLogic a then
    [{ path := "Domain/Entities/" ++ baseName ++ "Entity.cs", type := "Model",
       purpose := "Domain entity with business rules",
       content := generateDomainEntity a ns, sourceModule := a.fileName }]
  else []) ++
  [{ path := "Application/Services/" ++ baseName ++ "Service.cs", type := "Service",
     purpose := "Application service with use cases",
     content := generateApplicationService a ns opts, sourceModule := a.fileName }] ++
  (if a.businessLogic.databaseOperations.length > 0 then
    [{ path := "Application/Interfaces/I" ++ baseName ++ "Repository.cs",
       type := "Repository", purpose := "Repository interface for data access",
       content := generateRepositoryInterface a ns, sourceModule := a.fileName },
     { path := "Infrastructure/Repositories/" ++ baseName ++ "Repository.cs",
       type := "Repository", purpose := "Repository implementation with EF Core",
       content := generateRepositoryImplementation a ns, sourceModule := a.fileName }]
  else []) ++
  (if a.moduleType = "Form" then
    [{ path := "Presentation/Controllers/" ++ baseName ++ "Controller.cs",
       type := "Controller", purpose := "MVC controller for UI logic",
       content := generateControllerMM a ns, sourceModule := a.fileName },
     { path := "Presentation/ViewModels/" ++ baseName ++ "ViewModel.cs",
       type := "ViewModel", purpose := "View model for data binding",
       content := generateViewModelMM a ns, sourceModule := a.fileName }]
  else [])

/-- `generateLayeredArchitectureFiles`. -/
def layeredArchFiles (a : VBModuleAnalysisM) : List GeneratedFile :=
  let baseName := baseNoExt a.fileName
  [{ path := "Business/" ++ baseName ++ "BusinessLogic.cs", type := "Service",
     purpose := "Business logic implementation",
     content := generateBusinessLogicClass a, sourceModule := a.fileName }] ++
  (if a.businessLogic.databaseOperations.length > 0 then
    [{ path := "Data/" ++ baseName ++ "DataAccess.cs", type := "Repository",
       purpose := "Data access implementation",
       content := generateDataAccessClass a, sourceModule := a.fileName }]
  else []) ++
  (if a.moduleType = "Form" then
    [{ path := "Presentation/" ++ baseName ++ "Presenter.cs", type := "Controller",
       purpose := "Presentation logic",
       content := generatePresenter a, sourceModule := a.fileName }]
  else [])

/-- `generateMVCFiles`. -/
def mvcArchFiles (a : VBModuleAnalysisM) : List GeneratedFile :=
  let baseName := baseNoExt a.fileName
  [{ path := "Models/" ++ baseName ++ "Model.cs", type := "Model",
     purpose := "Data model", content := generateModelMM a, sourceModule := a.fileName },
   { path := "Controllers/" ++ baseName ++ "Controller.cs", type := "Controller",
     purpose := "MVC controller", content := generateMVCController a,
     sourceModule := a.fileName }] ++
  (if a.moduleType = "Form" then
    (generateMVCViews baseName).map (fun v =>
      { path := "Views/" ++ baseName ++ "/" ++ v.1 ++ ".cshtml", type := "View",
        purpose := v.2.1, content := v.2.2, sourceModule := a.fileName })
  else [])

/-- `generateMVVMFiles`. -/
def mvvmArchFiles (a : VBModuleAnalysisM) : List GeneratedFile :=
  let baseName := baseNoExt a.fileName
  [{ path := "Models/" ++ baseName ++ "Model.cs", type := "Model",
     purpose := "Data model", content := generateModelMM a, sourceModule := a.fileName },
   { path := "ViewModels/" ++ baseName ++ "ViewModel.cs", type := "ViewModel",
     purpose := "MVVM view model with commands and properties",
     content := generateMVVMViewModel a, sourceModule := a.fileName }] ++
  (if hasBusinessLogic a then
    [{ path := "Services/" ++ baseName ++ "Service.cs", type := "Service",
       purpose := "Business service for view model",
       content := generateMVVMService a, sourceModule := a.fileName }]
  else []) ++
  (if a.moduleType = "Form" then
    [{ path := "Views/" ++ baseName ++ "View.xaml", type := "View",
       purpose := "WPF/UWP view", content := generateXAMLView baseName,
       sourceModule := a.fileName }]
  else [])

/-- `generateTests`: one test scaffold when business logic exists. -/
def testFiles (a : VBModuleAnalysisM) : List GeneratedFile :=
  let baseName := baseNoExt a.fileName
  let ns := generateNamespace baseName
  if hasBusinessLogic a then
    [{ path := "Tests/" ++ baseName ++ "Tests.cs", type := "Test",
       purpose := "Unit tests for business logic",
       content := generateUnitTests a ns, sourceModule := a.fileName }]
  else []

/-- The file-generation core of `migrateModule`: dispatch on the target
architecture, then append test scaffolds when requested. -/
def migrateModuleFiles (a : VBModuleAnalysisM) (arch : String) (opts : MigOptions) :
    List GeneratedFile :=
  (if arch = "Clean" then cleanArchFiles a opts
   else if arch = "Layered" then layeredArchFiles a
   else if arch = "MVC" then mvcArchFiles a
   else if arch = "MVVM" then mvvmArchFiles a
   else []) ++
  (if opts.generateTests then testFiles a else [])

/-! ## Parser data model (src/parsers/vb-parser.ts interfaces) -/

structure VBControlP where
  name : String
  type : String
  propsBag : List (String × String) := []   -- the properties bag
  events : List VBEventP := []

structure VBPropertyP where
  name : String
  type : String
  getter : Option String := none
  setter : Option String := none
  isPublic : Bool
  isReadOnly : Bool := false

structure VBVariableP where
  name : String
  type : String
  scope : String
  isStatic : Bool := false
  defaultValue : Option String := none

structure VBFormP where
  name : String
  path : String
  controls : List VBControlP := []
  events : List VBEventP := []
  propsList : List VBPropertyP := []        -- the properties list

/-- VBFunction and VBMethod share one carrier (`VBMethodP`); the two
override flags default to false for plain functions. -/
structure VBModuleP2 where
  name : String
  path : String
  functions : List VBMethodP := []
  modVars : List VBVariableP := []          -- the variables list
  imports : List String := []

structure VBClassP where
  name : String
  path : String
  inheritsFrom : Option String := none      -- the inherits field
  implementsList : List String := []        -- the implements list
  propsList : List VBPropertyP := []
  methods : List VBMethodP := []
  events : List VBEventP := []

structure VBReferenceP where
  name : String
  type : String
  version : Option String := none

structure VBProjectP where
  name : String
  path : String
  targetFramework : String
  forms : List VBFormP := []
  modules : List VBModuleP2 := []
  classes : List VBClassP := []
  references : List VBReferenceP := []
  projType : String := "WinForms"           -- the projectType field

/-! ## Architecture proposal generator
(ModernArchitectureGenerator in src/analyzers/architecture-generator.ts) -/

structure ProjectProposalM where
  name : String
  type : String
  targetFramework : String
  purpose : String
  dependencies : List String
  sourceModules : List String

structure SharedLibraryM where
  name : String
  purpose : String
  types : List String

structure ArchOptions where
  includeDatabase : Bool := true
  modernPatterns : Bool := true
  webBased : Bool := false

def getBusinessLogicModules (mas : List VBModuleAnalysisM) : List String :=
  (mas.filter (fun m => m.moduleType == "Module" || m.moduleType == "Class" ||
    (m.businessLogic.calculations.length > 0 || m.businessLogic.validations.length > 0))).map
    (·.fileName)

def getApplicationModules (mas : List VBModuleAnalysisM) : List String :=
  (mas.filter (fun m => m.methods.length > 0 && m.moduleType ≠ "Form")).map (·.fileName)

def getDataAccessModules (mas : List VBModuleAnalysisM) : List String :=
  (mas.filter (fun m => m.businessLogic.databaseOperations.length > 0)).map (·.fileName)

def getUIModules (mas : List VBModuleAnalysisM) : List String :=
  (mas.filter (fun m => m.moduleType == "Form")).map (·.fileName)

def getUILogicModules (mas : List VBModuleAnalysisM) : List String :=
  (mas.filter (fun m => m.moduleType == "Form" && m.events.length > 0)).map (·.fileName)

def getDataModules (mas : List VBModuleAnalysisM) : List String :=
  (mas.filter (fun m =>
    m.moduleVars.any (fun v => containsSub v.type "String" || containsSub v.type "Integer" ||
      containsSub v.type "Date") || m.businessLogic.databaseOperations.length > 0)).map
    (·.fileName)

def hasDataAccess (mas : List VBModuleAnalysisM) : Bool :=
  mas.any (fun m => m.businessLogic.databaseOperations.length > 0)

/-- Single (non-global) regex replacement. -/
def replaceFirstRE (re : RE) (interp : String → List (Option String) → String)
    (s : String) : String :=
  match findFrom re s.data 0 none with
  | none => s
  | some (st, e, cp) =>
    sliceS s.data 0 st ++ interp (sliceS s.data st e) (capsOf s.data cp (numGroups re)) ++
      String.mk (s.data.drop e)

-- trailing digits; the anchor is end-of-input (file names carry no line breaks)
def reTrailDigits : RE := rcat [rplus (.cls .digit), .eol]
def reFormOrModule : RE := .alt (rlit "Form") (rlit "Module")

/-- `identifyBusinessDomains`: group file names by a stripped base name
(insertion-ordered, as a JavaScript Map is), keep groups with more than
one member, and fall back to a single Core domain. -/
def identifyBusinessDomains (mas : List VBModuleAnalysisM) :
    List (String × List String) :=
  let domKey := fun (fileName : String) =>
    replaceFirstRE reFormOrModule (fun _ _ => "")
      (replaceFirstRE reTrailDigits (fun _ _ => "") fileName)
  let groups := mas.foldl
    (fun (acc : List (String × List String)) m =>
      let k := domKey m.fileName
      let rec ins : List (String × List String) → List (String × List String)
        | [] => [(k, [m.fileName])]
        | (g, vs) :: rest => if g = k then (g, vs ++ [m.fileName]) :: rest
                             else (g, vs) :: ins rest
      ins acc) []
  let domains := (groups.filter (fun g => g.2.length > 1)).map
    (fun g => (if g.1 = "" then "Core" else g.1, g.2))
  if domains.isEmpty then [("Core", mas.map (·.fileName))] else domains

/-- `generateCleanArchitecture`: Domain, Application, Infrastructure when
the database option is set or data access was detected, the UI project,
an API project for web targets, and the unit-test project. -/
def generateCleanArchitectureP (vbp : VBProjectP) (mas : List VBModuleAnalysisM)
    (opts : ArchOptions) : List ProjectProposalM × List SharedLibraryM :=
  let n := vbp.name
  let projects :=
    [{ name := n ++ ".Domain", type := "Library", targetFramework := "net8.0",
       purpose := "Domain entities, value objects, and business rules",
       dependencies := [], sourceModules := getBusinessLogicModules mas },
     { name := n ++ ".Application", type := "Library", targetFramework := "net8.0",
       purpose := "Use cases, services, and application logic",
       dependencies := [n ++ ".Domain"], sourceModules := getApplicationModules mas }] ++
    (if opts.includeDatabase || hasDataAccess mas then
      [{ name := n ++ ".Infrastructure", type := "Library", targetFramework := "net8.0",
         purpose := "Data access, external services, and infrastructure concerns",
         dependencies := [n ++ ".Domain", n ++ ".Application"],
         sourceModules := getDataAccessModules mas }]
    else []) ++
    (let uiType := if opts.webBased then "Web" else "Desktop"
     [{ name := n ++ "." ++ uiType, type := uiType, targetFramework := "net8.0",
        purpose := uiType ++ " user interface and controllers",
        dependencies := ([n ++ ".Application",
          if opts.includeDatabase then n ++ ".Infrastructure" else ""].filter (· ≠ "")),
        sourceModules := getUIModules mas }]) ++
    (if opts.webBased then
      [{ name := n ++ ".Api", type := "API", targetFramework := "net8.0",
         purpose := "REST API endpoints and controllers",
         dependencies := [n ++ ".Application", n ++ ".Infrastructure"],
         sourceModules := [] }]
    else []) ++
    [{ name := n ++ ".Tests.Unit", type := "Library", targetFramework := "net8.0",
       purpose := "Unit tests for business logic",
       dependencies := [n ++ ".Domain", n ++ ".Application"], sourceModules := [] }]
  (projects,
   [{ name := n ++ ".Shared",
      purpose := "Common utilities, extensions, and shared types",
      types := ["DTOs", "Extensions", "Constants", "Utilities"] }])

/-- `generateLayeredArchitecture`. -/
def generateLayeredArchitectureP (vbp : VBProjectP) (mas : List VBModuleAnalysisM)
    (opts : ArchOptions) : List ProjectProposalM × List SharedLibraryM :=
  let n := vbp.name
  ([{ name := n ++ ".Presentation", type := if opts.webBased then "Web" else "Desktop",
      targetFramework := "net8.0", purpose := "User interface and presentation logic",
      dependencies := [n ++ ".Business"], sourceModules := getUIModules mas },
    { name := n ++ ".Business", type := "Library", targetFramework := "net8.0",
      purpose := "Business logic and rules", dependencies := [n ++ ".Data"],
      sourceModules := getBusinessLogicModules mas },
    { name := n ++ ".Data", type := "Library", targetFramework := "net8.0",
      purpose := "Data access and persistence", dependencies := [],
      sourceModules := getDataAccessModules mas }], [])

/-- `generateMVCArchitecture`. -/
def generateMVCArchitectureP (vbp : VBProjectP) (mas : List VBModuleAnalysisM)
    (_opts : ArchOptions) : List ProjectProposalM × List SharedLibraryM :=
  let n := vbp.name
  ([{ name := n ++ ".Web", type := "Web", targetFramework := "net8.0",
      purpose := "ASP.NET Core MVC web application",
      dependencies := [n ++ ".Models", n ++ ".Services"],
      sourceModules := getUIModules mas },
    { name := n ++ ".Models", type := "Library", targetFramework := "net8.0",
      purpose := "Data models and view models", dependencies := [],
      sourceModules := getDataModules mas },
    { name := n ++ ".Services", type := "Library", targetFramework := "net8.0",
      purpose := "Business services and data access",
      dependencies := [n ++ ".Models"], sourceModules := getBusinessLogicModules mas }], [])

/-- `generateMVVMArchitecture`. -/
def generateMVVMArchitectureP (vbp : VBProjectP) (mas : List VBModuleAnalysisM)
    (_opts : ArchOptions) : List ProjectProposalM × List SharedLibraryM :=
  let n := vbp.name
  ([{ name := n ++ ".Desktop", type := "Desktop", targetFramework := "net8.0-windows",
      purpose := "WPF/WinUI MVVM desktop application",
      dependencies := [n ++ ".ViewModels", n ++ ".Services"],
      sourceModules := getUIModules mas },
    { name := n ++ ".ViewModels", type := "Library", targetFramework := "net8.0",
      purpose := "View models and UI logic",
      dependencies := [n ++ ".Models", n ++ ".Services"],
      sourceModules := getUILogicModules mas },
    { name := n ++ ".Models", type := "Library", targetFramework := "net8.0",
      purpose := "Data models and business entities", dependencies := [],
      sourceModules := getDataModules mas },
    { name := n ++ ".Services", type := "Library", targetFramework := "net8.0",
      purpose := "Business services and data access",
      dependencies := [n ++ ".Models"], sourceModules := getBusinessLogicModules mas }], [])

/-- `generateMicroservicesArchitecture`. -/
def generateMicroservicesArchitectureP (vbp : VBProjectP) (mas : List VBModuleAnalysisM)
    (_opts : ArchOptions) : List ProjectProposalM × List SharedLibraryM :=
  let n := vbp.name
  (((identifyBusinessDomains mas).map (fun d =>
      { name := n ++ "." ++ d.1 ++ "Service", type := "API",
        targetFramework := "net8.0", purpose := "Microservice for " ++ d.1 ++ " domain",
        dependencies := [n ++ ".Shared"], sourceModules := d.2 })) ++
    [{ name := n ++ ".Gateway", type := "API", targetFramework := "net8.0",
       purpose := "API Gateway for routing and cross-cutting concerns",
       dependencies := [], sourceModules := [] },
     { name := n ++ ".Web", type := "Web", targetFramework := "net8.0",
       purpose := "Web frontend consuming microservices", dependencies := [],
       sourceModules := getUIModules mas }], [])

/-- `generateStructure`: dispatch on the architecture, defaulting to Clean. -/
def generateStructureP (vbp : VBProjectP) (mas : List VBModuleAnalysisM)
    (arch : String) (opts : ArchOptions) : List ProjectProposalM × List SharedLibraryM :=
  if arch = "Clean" then generateCleanArchitectureP vbp mas opts
  else if arch = "Layered" then generateLayeredArchitectureP vbp mas opts
  else if arch = "MVC" then generateMVCArchitectureP vbp mas opts
  else if arch = "MVVM" then generateMVVMArchitectureP vbp mas opts
  else if arch = "Microservices" then generateMicroservicesArchitectureP vbp mas opts
  else generateCleanArchitectureP vbp mas opts

/-! ## The fixed project graph of CSharpGenerator

The four generated manifests declare these ProjectReference entries
(generateMainProjectFile, generateCoreProjectFile, generateDataProjectFile,
generateTestProjectFile): the WinForms project references Core and Data,
Core references nothing, Data references Core, Tests references all three. -/

def coreProjectRefs (_n : String) : List String := []
def dataProjectRefs (n : String) : List String := [n ++ ".Core"]
def mainProjectRefs (n : String) : List String := [n ++ ".Core", n ++ ".Data"]
def testProjectRefs (n : String) : List String :=
  [n ++ ".Core", n ++ ".Data", n ++ ".WinForms"]

def csgenGraph (n : String) : List (String × List String) :=
  [(n ++ ".Core", coreProjectRefs n), (n ++ ".Data", dataProjectRefs n),
   (n ++ ".WinForms", mainProjectRefs n), (n ++ ".Tests", testProjectRefs n)]

/-- Every dependency that names a generated subsystem names one of
strictly smaller rank: the declared references are acyclic and point only
towards the base of the graph. -/
def depsRespectRank (ps : List (String × List String)) (rank : String → Nat) : Bool :=
  ps.all (fun p => p.2.all (fun d =>
    !(ps.any (fun q => q.1 == d)) || decide (rank d < rank p.1)))

def projGraph (props : List ProjectProposalM) : List (String × List String) :=
  props.map (fun p => (p.name, p.dependencies))

/-! ## VB parser (src/parsers/vb-parser.ts)

The file system is a finite map from root-relative paths to contents; the
glob enumerations become extension filters over it (with the glob ignore
list), and the xml2js descriptor parse becomes an environment function
returning the navigation results read by the extractors (whose try/catch
defaults are kept).  Everything else is transcribed. -/

-- [\w.]+
def wdotPlus : RE := rplus (.alt (.cls .word) (.lit '.'))

-- /(?:Public\s+|Private\s+)?Class\s+(\w+)/i
def reClassName : RE :=
  rcat [.opt (.alt (.cat (rlitCI "Public") sp1) (.cat (rlitCI "Private") sp1)),
    rlitCI "Class", sp1, .grp 1 wplus]

-- /Module\s+(\w+)/i
def reModuleName : RE := rcat [rlitCI "Module", sp1, .grp 1 wplus]

-- /(?:Friend\s+|Private\s+|Protected\s+)?WithEvents\s+(\w+)\s+As\s+(\w+(?:\.\w+)*)/gi
def reControls : RE :=
  rcat [.opt (ralts [.cat (rlitCI "Friend") sp1, .cat (rlitCI "Private") sp1,
      .cat (rlitCI "Protected") sp1]),
    rlitCI "WithEvents", sp1, .grp 1 wplus, sp1, rlitCI "As", sp1,
    .grp 2 (.cat wplus (.rep (.cat (.lit '.') wplus) false))]

-- /(?:Private\s+|Public\s+)?Sub\s+(\w+)_(\w+)\((.*?)\)\s*(?:Handles\s+[^\r\n]+)?\s*\r?\n([\s\S]*?)\r?\nEnd Sub/gi
def reEventsP : RE :=
  rcat [.opt (.alt (.cat (rlitCI "Private") sp1) (.cat (rlitCI "Public") sp1)),
    rlitCI "Sub", sp1, .grp 1 wplus, .lit '_', .grp 2 wplus, .lit '(',
    .grp 3 (.rep (.cls .dot) true), .lit ')', sp0,
    .opt (rcat [rlitCI "Handles", sp1, rplus (.cls (.notIn ['\r', '\n']))]), sp0,
    .opt (.lit '\r'), .lit '\n', .grp 4 (.rep (.cls .anyNL) true),
    .opt (.lit '\r'), .lit '\n', rlitCI "End Sub"]

-- /(?:Public\s+|Private\s+|Protected\s+)?Property\s+(\w+)\(\)\s+As\s+(\w+)[\s\S]*?End Property/gi
def rePropsP : RE :=
  rcat [.opt (ralts [.cat (rlitCI "Public") sp1, .cat (rlitCI "Private") sp1,
      .cat (rlitCI "Protected") sp1]),
    rlitCI "Property", sp1, .grp 1 wplus, rlit "()", sp1, rlitCI "As", sp1,
    .grp 2 wplus, .rep (.cls .anyNL) true, rlitCI "End Property"]

-- /(?:Public\s+|Private\s+|Protected\s+)?(?:Shared\s+)?Function\s+(\w+)\((.*?)\)\s+As\s+(\w+)\s*\r?\n([\s\S]*?)\r?\nEnd Function/gi
def reFunctionsP : RE :=
  rcat [.opt (ralts [.cat (rlitCI "Public") sp1, .cat (rlitCI "Private") sp1,
      .cat (rlitCI "Protected") sp1]),
    .opt (.cat (rlitCI "Shared") sp1),
    rlitCI "Function", sp1, .grp 1 wplus, .lit '(', .grp 2 (.rep (.cls .dot) true),
    .lit ')', sp1, rlitCI "As", sp1, .grp 3 wplus, sp0, .opt (.lit '\r'), .lit '\n',
    .grp 4 (.rep (.cls .anyNL) true), .opt (.lit '\r'), .lit '\n', rlitCI "End Function"]

-- /(?:Public\s+|Private\s+|Protected\s+)?(?:Shared\s+)?Sub\s+(\w+)\((.*?)\)\s*\r?\n([\s\S]*?)\r?\nEnd Sub/gi
def reSubsP : RE :=
  rcat [.opt (ralts [.cat (rlitCI "Public") sp1, .cat (rlitCI "Private") sp1,
      .cat (rlitCI "Protected") sp1]),
    .opt (.cat (rlitCI "Shared") sp1),
    rlitCI "Sub", sp1, .grp 1 wplus, .lit '(', .grp 2 (.rep (.cls .dot) true),
    .lit ')', sp0, .opt (.lit '\r'), .lit '\n', .grp 3 (.rep (.cls .anyNL) true),
    .opt (.lit '\r'), .lit '\n', rlitCI "End Sub"]

-- /(Public|Private|Protected|Friend)(?:\s+Shared)?\s+(\w+)\s+As\s+(\w+)(?:\s*=\s*([^\r\n]+))?/gi
def reVariablesP : RE :=
  rcat [.grp 1 (ralts [rlitCI "Public", rlitCI "Private", rlitCI "Protected",
      rlitCI "Friend"]),
    .opt (.cat sp1 (rlitCI "Shared")), sp1, .grp 2 wplus, sp1, rlitCI "As", sp1,
    .grp 3 wplus,
    .opt (rcat [sp0, .lit '=', sp0, .grp 4 (rplus (.cls (.notIn ['\r', '\n'])))])]

-- /Imports\s+([\w.]+)/gi
def reImportsP : RE := rcat [rlitCI "Imports", sp1, .grp 1 wdotPlus]

-- /Inherits\s+([\w.]+)/i
def reInheritsP : RE := rcat [rlitCI "Inherits", sp1, .grp 1 wdotPlus]

-- /Implements\s+([\w.]+)/gi
def reImplementsP : RE := rcat [rlitCI "Implements", sp1, .grp 1 wdotPlus]

-- /(?:(ByRef|ByVal)\s+)?(?:Optional\s+)?(\w+)\s+As\s+(\w+)(?:\s*=\s*([^,]+))?/i
def reParamP : RE :=
  rcat [.opt (.cat (.grp 1 (.alt (rlitCI "ByRef") (rlitCI "ByVal"))) sp1),
    .opt (.cat (rlitCI "Optional") sp1), .grp 2 wplus, sp1, rlitCI "As", sp1,
    .grp 3 wplus, .opt (rcat [sp0, .lit '=', sp0, .grp 4 (rplus (.cls (.notIn [','])))])]

/-- `parseParameters`. -/
def parseParameters (paramString : String) : List VBParameterP :=
  if jsTrim paramString = "" then []
  else
    ((jsSplitC ',' paramString).filterMap (fun part =>
      let trimmed := jsTrim part
      match firstMatch reParamP trimmed with
      | some (_, gs) =>
        some { name := jsShow (gv gs 1), type := jsShow (gv gs 2),
               byRef := toLowerS (jsShow (gv gs 0)) = "byref",
               isOptional := containsSub trimmed "Optional",
               defaultValue := (gv gs 3).map jsTrim }
      | none => none))

def extractClassName (content : String) : Option String :=
  (firstMatch reClassName content).bind (fun m => gv m.2 0)

def extractModuleName (content : String) : Option String :=
  (firstMatch reModuleName content).bind (fun m => gv m.2 0)

def extractControls (content : String) : List VBControlP :=
  (allMatches reControls content).map (fun m =>
    { name := jsShow (gv m.2 0), type := jsShow (gv m.2 1) })

def extractEvents (content : String) : List VBEventP :=
  (allMatches reEventsP content).map (fun m =>
    { name := jsShow (gv m.2 1),
      handler := jsShow (gv m.2 0) ++ "_" ++ jsShow (gv m.2 1),
      parameters := parseParameters (jsShow (gv m.2 2)),
      body := (gv m.2 3).map jsTrim })

def extractProperties (content : String) : List VBPropertyP :=
  (allMatches rePropsP content).map (fun m =>
    { name := jsShow (gv m.2 0), type := jsShow (gv m.2 1),
      isPublic := containsSub content ("Public Property " ++ jsShow (gv m.2 0)) })

def extractFunctions (content : String) : List VBMethodP :=
  (allMatches reFunctionsP content).map (fun m =>
    let funcName := jsShow (gv m.2 0)
    { name := funcName, returnType := jsShow (gv m.2 2),
      parameters := parseParameters (jsShow (gv m.2 1)),
      isPublic := containsSub content ("Public Function " ++ funcName) ||
        containsSub content ("Public Shared Function " ++ funcName),
      isStatic := containsSub content ("Shared Function " ++ funcName),
      body := jsTrim (jsShow (gv m.2 3)) })

def extractMethods (content : String) : List VBMethodP :=
  extractFunctions content ++
  (allMatches reSubsP content).map (fun m =>
    let subName := jsShow (gv m.2 0)
    { name := subName, returnType := "void",
      parameters := parseParameters (jsShow (gv m.2 1)),
      isPublic := containsSub content ("Public Sub " ++ subName) ||
        containsSub content ("Public Shared Sub " ++ subName),
      isStatic := containsSub content ("Shared Sub " ++ subName),
      body := jsTrim (jsShow (gv m.2 2)) })

def extractVariablesP (content : String) : List VBVariableP :=
  (allMatches reVariablesP content).map (fun m =>
    { name := jsShow (gv m.2 1), type := jsShow (gv m.2 2),
      scope := jsShow (gv m.2 0),
      isStatic := containsSub content ("Shared " ++ jsShow (gv m.2 1)),
      defaultValue := (gv m.2 3).map jsTrim })

def extractImports (content : String) : List String :=
  (allMatches reImportsP content).map (fun m => jsShow (gv m.2 0))

def extractInherits (content : String) : Option String :=
  (firstMatch reInheritsP content).bind (fun m => gv m.2 0)

def extractImplements (content : String) : List String :=
  (allMatches reImplementsP content).map (fun m => jsShow (gv m.2 0))

/-- `extractFormFromCode`. -/
def extractFormFromCode (content filePath : String) : VBFormP :=
  { name := (extractClassName content).getD (baseNoExt filePath), path := filePath,
    controls := extractControls content, events := extractEvents content,
    propsList := extractProperties content }

/-- `extractModuleFromCode`. -/
def extractModuleFromCode (content filePath : String) : VBModuleP2 :=
  { name := (extractModuleName content).getD (baseNoExt filePath), path := filePath,
    functions := extractFunctions content, modVars := extractVariablesP content,
    imports := extractImports content }

/-- `extractClassFromCode`. -/
def extractClassFromCode (content filePath : String) : VBClassP :=
  { name := (extractClassName content).getD (baseNoExt filePath), path := filePath,
    inheritsFrom := extractInherits content,
    implementsList := extractImplements content,
    propsList := extractProperties content, methods := extractMethods content,
    events := extractEvents content }

/-! The file-system model and project-level parsing. -/

structure FSx where
  files : List (String × String)

def readFS (fs : FSx) (p : String) : Option String := fs.files.lookup p

def pathExistsFS (fs : FSx) (p : String) : Bool := (readFS fs p).isSome

/-- `String.prototype.startsWith`. -/
def startsWithS (s pre : String) : Bool := pre.data.isPrefixOf s.data

/-- The glob ignore list (node_modules, bin, obj). -/
def ignoredPath (p : String) : Bool :=
  startsWithS p "node_modules/" || startsWithS p "bin/" || startsWithS p "obj/"

/-- `findProjectFiles`: every not-ignored path with a recognized
project-descriptor extension, in file-system order. -/
def findProjectFiles (fs : FSx) : List String :=
  (fs.files.map (·.1)).filter (fun p =>
    (endsWithS p ".vbproj" || endsWithS p ".vbp") && !ignoredPath p)

/-- `findVBFiles`: every not-ignored path with a recognized source
extension. -/
def findVBFiles (fs : FSx) : List String :=
  (fs.files.map (·.1)).filter (fun p =>
    (endsWithS p ".vb" || endsWithS p ".frm" || endsWithS p ".bas" || endsWithS p ".cls") &&
    !ignoredPath p)

/-- The xml2js navigation results the vbproj extractors read; the parse
function models `parseStringPromise` (none = the promise rejects on
malformed XML). -/
structure XmlProjData where
  targetFramework : Option String := none
  outputType : Option String := none
  useWPF : Option String := none
  useWindowsForms : Option String := none
  references : List (String × Option String) := []
  comReferences : List (String × String) := []

structure XmlEnv where
  parse : String → Option XmlProjData

/-- `extractTargetFramework`, default net48. -/
def extractTargetFrameworkX (d : XmlProjData) : String :=
  d.targetFramework.getD "net48"

/-- `determineProjectType`, default WinForms. -/
def determineProjectTypeX (d : XmlProjData) : String :=
  if d.useWPF = some "true" then "WinForms"
  else if d.useWindowsForms = some "true" then "WinForms"
  else if d.outputType = some "Exe" then "Console"
  else if d.outputType = some "Library" then "Library"
  else "WinForms"

/-- `extractReferences`: assembly references then COM references. -/
def extractReferencesX (d : XmlProjData) : List VBReferenceP :=
  d.references.map (fun r => { name := r.1, type := "Assembly", version := r.2 }) ++
  d.comReferences.map (fun r => { name := r.1, type := "COM", version := some r.2 })

/-- `path.basename(p, ext)` with an explicit extension. -/
def basenameSuffix (p ext : String) : String :=
  let b := basenameS p
  if ext ≠ "" && endsWithS b ext && b ≠ ext then
    String.mk (b.data.take (b.data.length - ext.data.length))
  else b

abbrev ParseState := VBProjectP × List String

/-- `parseVBForm`: a missing file is recorded as a warning and skipped. -/
def parseVBFormFS (fs : FSx) (formPath : String) (st : ParseState) : ParseState :=
  match readFS fs formPath with
  | none => (st.1, st.2 ++ ["Form file not found: " ++ formPath])
  | some content =>
    ({ st.1 with forms := st.1.forms ++ [extractFormFromCode content formPath] }, st.2)

/-- `parseVBModule`. -/
def parseVBModuleFS (fs : FSx) (modulePath : String) (st : ParseState) : ParseState :=
  match readFS fs modulePath with
  | none => (st.1, st.2 ++ ["Module file not found: " ++ modulePath])
  | some content =>
    ({ st.1 with modules := st.1.modules ++ [extractModuleFromCode content modulePath] },
     st.2)

/-- `parseVBClass`. -/
def parseVBClassFS (fs : FSx) (classPath : String) (st : ParseState) : ParseState :=
  match readFS fs classPath with
  | none => (st.1, st.2 ++ ["Class file not found: " ++ classPath])
  | some content =>
    ({ st.1 with classes := st.1.classes ++ [extractClassFromCode content classPath] },
     st.2)

/-- `parseVBCodeFile`: content sniffing for .vb files; a file matching no
category is ignored. -/
def parseVBCodeFile (content filePath : String) (p : VBProjectP) : VBProjectP :=
  if containsSub content "Public Class" &&
      containsSub content "Inherits System.Windows.Forms.Form" then
    { p with forms := p.forms ++ [extractFormFromCode content filePath] }
  else if containsSub content "Public Class" ||
      containsSub content "Public MustInherit Class" then
    { p with classes := p.classes ++ [extractClassFromCode content filePath] }
  else if containsSub content "Module " then
    { p with modules := p.modules ++ [extractModuleFromCode content filePath] }
  else p

/-- `parseVBFile`: dispatch on the lower-cased extension; an extension
outside the known set falls through the switch and the file contributes
nothing.  (The read cannot miss: the file was enumerated from the file
system.) -/
def parseVBFileFS (fs : FSx) (filePath : String) (st : ParseState) : ParseState :=
  match readFS fs filePath with
  | none => st
  | some content =>
    let ext := toLowerS (extnameS filePath)
    if ext = ".vb" then (parseVBCodeFile content filePath st.1, st.2)
    else if ext = ".frm" then parseVBFormFS fs filePath st
    else if ext = ".bas" then parseVBModuleFS fs filePath st
    else if ext = ".cls" then parseVBClassFS fs filePath st
    else st

/-- `parseVBPFile`: the legacy line-oriented descriptor. -/
def parseVBPFileFS (fs : FSx) (content projectFile : String) : ParseState :=
  let project0 : VBProjectP :=
    { name := basenameSuffix projectFile ".vbp", path := projectFile,
      targetFramework := "VB6", projType := "WinForms" }
  (splitNL content).foldl
    (fun st line =>
      let refPath := ((jsSplitC ';' (((jsSplitC '=' line).get? 1).getD "")).get? 0).getD ""
      if startsWithS line "Form=" then parseVBFormFS fs refPath st
      else if startsWithS line "Module=" then parseVBModuleFS fs refPath st
      else if startsWithS line "Class=" then parseVBClassFS fs refPath st
      else st)
    (project0, [])

/-- `parseVBProjFile`: the modern descriptor; a malformed manifest
rejects the whole call. -/
def parseVBProjFileFS (env : XmlEnv) (fs : FSx) (content projectFile : String) :
    Except String ParseState :=
  match env.parse content with
  | none => .error "XML parse error"
  | some d =>
    let project0 : VBProjectP :=
      { name := basenameSuffix projectFile ".vbproj", path := projectFile,
        targetFramework := extractTargetFrameworkX d,
        references := extractReferencesX d, projType := determineProjectTypeX d }
    .ok ((findVBFiles fs).foldl (fun st f => parseVBFileFS fs f st) (project0, []))

/-- `parseVBProject`: fails exactly when no recognized project descriptor
exists (or its XML is malformed); otherwise the first descriptor found is
parsed. -/
def parseVBProjectFS (env : XmlEnv) (fs : FSx) : Except String ParseState :=
  match findProjectFiles fs with
  | [] => .error "No VB.NET project files found in the specified directory"
  | projectFile :: _ =>
    match readFS fs projectFile with
    | none => .error "ENOENT"
    | some content =>
      if endsWithS projectFile ".vbproj" then parseVBProjFileFS env fs content projectFile
      else .ok (parseVBPFileFS fs content projectFile)

/-! # Verification

## Sorting lemmas -/

theorem ordInsertP_perm {α : Type} (prio : α → Nat) (a : α) (l : List α) :
    List.Perm (ordInsertP prio a l) (a :: l) := by
  induction l with
  | nil => simp [ordInsertP]
  | cons b t ih =>
    simp only [ordInsertP]
    by_cases h : prio a < prio b
    · rw [if_pos h]
      exact (ih.cons b).trans (List.Perm.swap a b t)
    · rw [if_neg h]

theorem sortByPrioDesc_perm {α : Type} (prio : α → Nat) (l : List α) :
    List.Perm (sortByPrioDesc prio l) l := by
  induction l with
  | nil => simp [sortByPrioDesc]
  | cons a t ih =>
    exact (ordInsertP_perm prio a (sortByPrioDesc prio t)).trans (ih.cons a)

theorem ordInsertP_sorted {α : Type} (prio : α → Nat) (a : α) (l : List α)
    (hl : l.Pairwise (fun x y => prio y ≤ prio x)) :
    (ordInsertP prio a l).Pairwise (fun x y => prio y ≤ prio x) := by
  induction l with
  | nil => simp [ordInsertP]
  | cons b t ih =>
    rcases List.pairwise_cons.mp hl with ⟨hb, ht⟩
    simp only [ordInsertP]
    by_cases h : prio a < prio b
    · rw [if_pos h]
      refine List.pairwise_cons.mpr ⟨?_, ih ht⟩
      intro x hx
      rcases List.mem_cons.mp ((List.Perm.mem_iff (ordInsertP_perm prio a t)).mp hx) with
        hx | hx
      · subst hx; exact Nat.le_of_lt h
      · exact hb x hx
    · rw [if_neg h]
      refine List.pairwise_cons.mpr ⟨?_, hl⟩
      intro x hx
      rcases List.mem_cons.mp hx with hx | hx
      · subst hx; exact Nat.le_of_not_lt h
      · exact Nat.le_trans (hb x hx) (Nat.le_of_not_lt h)

theorem sortByPrioDesc_sorted {α : Type} (prio : α → Nat) (l : List α) :
    (sortByPrioDesc prio l).Pairwise (fun x y => prio y ≤ prio x) := by
  induction l with
  | nil => simp [sortByPrioDesc]
  | cons a t ih => exact ordInsertP_sorted prio a _ ih

theorem ordInsertP_filter {α : Type} (prio : α → Nat) (a : α) (p : Nat) (l : List α)
    (hl : l.Pairwise (fun x y => prio y ≤ prio x)) :
    (ordInsertP prio a l).filter (fun x => prio x == p) =
      if prio a = p then a :: l.filter (fun x => prio x == p)
      else l.filter (fun x => prio x == p) := by
  induction l with
  | nil =>
    by_cases hap : prio a = p
    · simp [ordInsertP, List.filter, beq_iff_eq, hap]
    · rw [ordInsertP, if_neg hap]
      simp only [List.filter, beq_eq_false_iff_ne.mpr hap]
  | cons b t ih =>
    rcases List.pairwise_cons.mp hl with ⟨hb, ht⟩
    simp only [ordInsertP]
    by_cases h : prio a < prio b
    · rw [if_pos h]
      by_cases hbp : prio b = p
      · have hap : prio a ≠ p := by omega
        simp [List.filter_cons, beq_iff_eq, hbp, hap, ih ht]
      · by_cases hap : prio a = p <;>
          simp [List.filter_cons, beq_iff_eq, hbp, hap, ih ht]
    · rw [if_neg h]
      by_cases hap : prio a = p <;> simp [List.filter_cons, beq_iff_eq, hap]

theorem sortByPrioDesc_filter {α : Type} (prio : α → Nat) (p : Nat) (l : List α) :
    (sortByPrioDesc prio l).filter (fun x => prio x == p) =
      l.filter (fun x => prio x == p) := by
  induction l with
  | nil => simp [sortByPrioDesc]
  | cons a t ih =>
    simp only [sortByPrioDesc]
    rw [ordInsertP_filter prio a p _ (sortByPrioDesc_sorted prio t), ih]
    by_cases hap : prio a = p <;> simp [List.filter_cons, beq_iff_eq, hap]

set_option maxRecDepth 1000000

/-! ## C1 and C2: the fold structure and the applied order -/

/-- Spec-side reading of a rule Condition: file-extension is a suffix
test on the file path, project-kind an equality test, and the two
substring tests run against the whole file content of the context, never
against the span being rewritten. -/
def specCondHolds (ctx : MigCtx) : MigCond → Bool
  | .contains v => containsSub ctx.fileContent v
  | .notContains v => !containsSub ctx.fileContent v
  | .fileExtension v => endsWithS ctx.filePath v
  | .projType v => ctx.projType == v

/-- Spec-side gate: all Conditions of the rule hold (absent = all hold). -/
def specRuleApplies (r : Rule) (ctx : MigCtx) : Bool :=
  (r.conditions.getD []).all (specCondHolds ctx)

theorem shouldApplyRule_eq_spec (r : Rule) (ctx : MigCtx) :
    shouldApplyRule r ctx = specRuleApplies r ctx := by
  unfold shouldApplyRule specRuleApplies
  cases r.conditions with
  | none => rfl
  | some cs =>
    simp only [Option.getD_some]
    induction cs with
    | nil => rfl
    | cons c t ih =>
      simp [List.all_cons]
      cases c <;> rfl

/-- A text whose try-catch block starts at a nonzero offset. -/
def c1Text : String := "x = 1\nTry\ny = 2\nCatch ex As Exception\nz = 3\nEnd Try"

/-- C1 fails on the code as stated: `applyRules` does not return the
fold's text on every input, because four closure rules destructure past
their capture groups into the numeric match offset and feed it to
`convertMethodBody`, which throws a TypeError whenever such a rule
matches at a nonzero offset.  On this text the vb-try-catch rule matches
at offset 6, so the whole call throws instead of producing a string. -/
theorem applyRules_throws_on_offset_match :
    applyRulesEF 2 defaultRules c1Text
      { filePath := "test.vb", fileContent := c1Text, projType := "WinForms",
        targetFramework := "net8.0" } =
      .error "TypeError: vbBody.trim is not a function" := by
  rfl

/-- C1 amended: under the error-aware semantics `applyRules` is exactly
the sequential left-to-right monadic fold over the rules in applied
order: a rule whose Conditions (checked against the context per
`specCondHolds`) all hold performs the global non-overlapping
substitution on the current text with the callbacks receiving the match
offset and subject string after the captured groups, the output of each
rule feeding the next, a rule with a failing condition leaving the text
unchanged, and a thrown step aborting the whole call; the defective
closures throw on any nonzero offset read (`vbBody.trim` on a number)
and fall to the placeholder on the falsy offset 0. -/
theorem applyRules_monadic_fold (f : Nat) (rules : List Rule) (text : String)
    (ctx : MigCtx) :
    applyRulesEF f rules text ctx =
      (sortRules rules).foldl
        (fun acc r =>
          match acc with
          | .error e => .error e
          | .ok t => if specRuleApplies r ctx then applyRuleWithE (interpBFE f) r t
                     else .ok t)
        (.ok text) ∧
    (∀ (g : BInterpE) (k : Nat), convertMethodBodyWithE g (.num (k + 1)) =
        .error "TypeError: vbBody.trim is not a function") ∧
    (∀ (g : BInterpE), convertMethodBodyWithE g (.num 0) =
        .ok "    // TODO: Implement method logic") := by
  refine ⟨?_, fun g k => rfl, fun g => rfl⟩
  unfold applyRulesEF applyRulesWithE
  congr 1
  funext acc r
  cases acc with
  | error e => rfl
  | ok t => rw [shouldApplyRule_eq_spec]

/-- C2: the engine sorts with a stable comparator by descending priority:
the applied order is sorted by priority descending (higher priority rules
run first), rules of equal priority keep their declaration order (the
filter at each priority level is untouched), and sorting permutes the
declared rule set. -/
theorem rules_sort_stable_desc (rules : List Rule) :
    (sortRules rules).Pairwise (fun a b => b.priority ≤ a.priority) ∧
    (∀ p, (sortRules rules).filter (fun r => r.priority == p) =
      rules.filter (fun r => r.priority == p)) ∧
    List.Perm (sortRules rules) rules :=
  ⟨sortByPrioDesc_sorted _ rules, fun p => sortByPrioDesc_filter _ p rules,
   sortByPrioDesc_perm _ rules⟩

/-! ## C7: determinism -/

/-- C7: for a fixed rule set, `applyRules` is a pure function of the text
and the context: two invocations with identical input text and identical
context produce identical output (the embedding threads no hidden state;
the source mutates only the rule array order, which the stable sort maps
to the same sorted sequence on every call). -/
theorem applyRules_deterministic (f : Nat) (rules : List Rule) (t₁ t₂ : String)
    (ctx₁ ctx₂ : MigCtx) (ht : t₁ = t₂) (hc : ctx₁ = ctx₂) :
    applyRulesF f rules t₁ ctx₁ = applyRulesF f rules t₂ ctx₂ := by
  subst ht; subst hc; rfl

theorem applyRules_deterministic_witness :
    applyRulesF 2 defaultRules "Dim x As Integer"
      { filePath := "a.vb", fileContent := "Dim x As Integer", projType := "WinForms",
        targetFramework := "net8.0" } =
    applyRulesF 2 defaultRules "Dim x As Integer"
      { filePath := "a.vb", fileContent := "Dim x As Integer", projType := "WinForms",
        targetFramework := "net8.0" } :=
  applyRules_deterministic 2 defaultRules _ _ _ _ rfl rfl

/-! ## C10: the generated event-handler signature -/

/-- C10: every generated C# event-handler method has return type void,
access modifier private, and exactly the (object sender, EventArgs e)
parameter list; `convertEventParameters` discards the declared VB
parameter list unconditionally. -/
theorem event_handler_fixed_signature (f : Nat) (ev : VBEventP) (ps : Option String) :
    (convertVBEventToCSharpMethodF f ev).returnType = "void" ∧
    (convertVBEventToCSharpMethodF f ev).accessModifier = "private" ∧
    (convertVBEventToCSharpMethodF f ev).parameters =
      [{ name := "sender", type := "object", isOptional := false },
       { name := "e", type := "EventArgs", isOptional := false }] ∧
    convertEventParameters ps = "object sender, EventArgs e" :=
  ⟨rfl, rfl, rfl, rfl⟩

/-! ## C3: no-throw behaviour and placeholders -/

theorem replaceAll_no_match (re : RE) (interp : String → List (Option String) → String)
    (s : String) (h : reTest re s = false) :
    replaceAllS re interp s = s := by
  have hn : findFrom re s.data 0 none = none := by
    cases hf : findFrom re s.data 0 none with
    | none => rfl
    | some v => rw [reTest, hf] at h; simp at h
  show replGo interp re (numGroups re) s.data (s.data.length + 1) s.data 0 none "" = s
  rw [replGo, hn]
  cases s
  rfl

/-- C3: the rewrite engine is total and never raises: a rule whose
pattern matches nowhere in the text is a no-op, `convertMethodBody` on an
empty body yields its placeholder comment, the enhanced-engine entry
point of the generator yields its placeholder on blank input, and a
method whose body span is blank gets the documented placeholder body
instead of empty braces. -/
theorem engine_no_throw_placeholders (f : Nat) (r : Rule) (text : String)
    (m : VBMethodP) (hnm : reTest r.pattern text = false)
    (hb : jsTrim m.body = "") :
    applyRuleF f r text = text ∧
    convertMethodBodyF f (some "") = "    // TODO: Implement method logic" ∧
    migrateVBCodeWithEnhancedEngineF f "" "" = "// TODO: Implement method logic" ∧
    (convertVBMethodToCSharpF f m).body = "// TODO: Implement method body" := by
  refine ⟨replaceAll_no_match _ _ _ hnm, rfl, ?_, ?_⟩
  · cases f with
    | zero => rfl
    | succ fγ => rfl
  · unfold convertVBMethodToCSharpF
    simp [hb]

theorem engine_no_throw_placeholders_witness :
    applyRuleF 1
      { id := "vb-dim-declaration", category := "Syntax", priority := 10,
        pattern := reDimDecl, replacement := .tmpl [.g 2, .s " ", .g 1] }
      "hello world" = "hello world" ∧
    convertMethodBodyF 1 (some "") = "    // TODO: Implement method logic" ∧
    migrateVBCodeWithEnhancedEngineF 1 "" "" = "// TODO: Implement method logic" ∧
    (convertVBMethodToCSharpF 1 { name := "M", returnType := "void", body := "  " }).body =
      "// TODO: Implement method body" :=
  engine_no_throw_placeholders 1 _ _ _ (by decide) (by decide)

/-! ## C9 and C8: concrete rewrite scenarios and idempotence -/

/-- The context a caller builds around a snippet under test. -/
def scenCtx (t : String) : MigCtx :=
  { filePath := "test.vb", fileContent := t, projType := "WinForms",
    targetFramework := "net8.0" }

def leadingSpaces (s : String) : Nat := (s.data.takeWhile (fun c => c = ' ')).length

/-- C9: the concrete rewrite scenarios of the spec hold for `applyRules`
with the default rule set: the Dim declaration produces `string nombre`,
the If header produces `if (x > 5)`, in a file also containing End If the
terminator becomes a closing brace on a line aligned with the opening
`if`, and MsgBox becomes MessageBox.Show. -/
theorem applyRules_scenarios :
    containsSub (applyRulesF 2 defaultRules "Dim nombre As String"
      (scenCtx "Dim nombre As String")) "string nombre" = true ∧
    containsSub (applyRulesF 2 defaultRules "If x > 5 Then"
      (scenCtx "If x > 5 Then")) "if (x > 5)" = true ∧
    applyRulesF 2 defaultRules "    If x > 5 Then\n    x = 1\n    End If"
      (scenCtx "    If x > 5 Then\n    x = 1\n    End If") =
      "    if (x > 5)\n    x = 1\n    \x7d" ∧
    leadingSpaces "    if (x > 5)" = leadingSpaces "    \x7d" ∧
    containsSub (applyRulesF 2 defaultRules "MsgBox(\x22Hello World\x22)"
      (scenCtx "MsgBox(\x22Hello World\x22)")) "MessageBox.Show(\x22Hello World\x22)" = true := by
  decide

/-- C8: on the fully-convertible scenario corpus, a second application of
the full rule set to the converted text (under the context a caller would
rebuild around it) changes nothing. -/
theorem applyRules_idempotent_on_corpus :
    applyRulesF 2 defaultRules
      (applyRulesF 2 defaultRules "Dim nombre As String" (scenCtx "Dim nombre As String"))
      (scenCtx (applyRulesF 2 defaultRules "Dim nombre As String"
        (scenCtx "Dim nombre As String"))) =
      applyRulesF 2 defaultRules "Dim nombre As String" (scenCtx "Dim nombre As String") ∧
    applyRulesF 2 defaultRules
      (applyRulesF 2 defaultRules "    If x > 5 Then\n    x = 1\n    End If"
        (scenCtx "    If x > 5 Then\n    x = 1\n    End If"))
      (scenCtx (applyRulesF 2 defaultRules "    If x > 5 Then\n    x = 1\n    End If"
        (scenCtx "    If x > 5 Then\n    x = 1\n    End If"))) =
      applyRulesF 2 defaultRules "    If x > 5 Then\n    x = 1\n    End If"
        (scenCtx "    If x > 5 Then\n    x = 1\n    End If") ∧
    applyRulesF 2 defaultRules
      (applyRulesF 2 defaultRules "MsgBox(\x22Hello World\x22)"
        (scenCtx "MsgBox(\x22Hello World\x22)"))
      (scenCtx (applyRulesF 2 defaultRules "MsgBox(\x22Hello World\x22)"
        (scenCtx "MsgBox(\x22Hello World\x22)"))) =
      applyRulesF 2 defaultRules "MsgBox(\x22Hello World\x22)"
        (scenCtx "MsgBox(\x22Hello World\x22)") := by
  decide

/-! ## C5: repository and service routing -/

def countFilesOfType (a : VBModuleAnalysisM) (arch : String) (opts : MigOptions)
    (ty : String) : Nat :=
  ((migrateModuleFiles a arch opts).filter (fun f => f.type == ty)).length

/-- A data-access-bearing module analysis (one recognized database
operation) and a module analysis with no business-logic and no
data-access signals. -/
def c5DataEntity : VBModuleAnalysisM :=
  { fileName := "Data.bas", moduleType := "Module",
    businessLogic :=
      { databaseOperations := [⟨"Select", "SELECT * FROM Customers"⟩] } }

def c5ZeroEntity : VBModuleAnalysisM :=
  { fileName := "Plain.frm", moduleType := "Form" }

/-- C5 fails on the code: under the Clean style a single
data-access-bearing entity yields two Repository artifacts (interface and
implementation), not one; and an entity with zero business-logic and zero
data-access signals still receives a Service artifact (the application
service is generated unconditionally). -/
theorem repository_routing_claim_false :
    c5DataEntity.businessLogic.databaseOperations.length = 1 ∧
    countFilesOfType c5DataEntity "Clean" {} "Repository" = 2 ∧
    countFilesOfType c5DataEntity "Clean" {} "Repository" ≠ 1 ∧
    hasBusinessLogic c5ZeroEntity = false ∧
    countFilesOfType c5ZeroEntity "Clean" {} "Service" = 1 := by
  decide

/-- C5 amended: per entity, the Clean style emits two Repository
artifacts (interface and implementation) exactly when the entity is
data-access-bearing and none otherwise, Layered emits one, MVC and MVVM
emit none; an entity with zero signals never receives a Repository
artifact in any of the four styles, but Clean and Layered emit one
Service-typed artifact for every entity unconditionally, while under MVVM
a Service artifact appears exactly for business-logic-bearing entities
and under MVC never. -/
theorem repository_routing_counts (a : VBModuleAnalysisM) (opts : MigOptions) :
    countFilesOfType a "Clean" opts "Repository" =
      (if a.businessLogic.databaseOperations.length > 0 then 2 else 0) ∧
    countFilesOfType a "Layered" opts "Repository" =
      (if a.businessLogic.databaseOperations.length > 0 then 1 else 0) ∧
    countFilesOfType a "MVC" opts "Repository" = 0 ∧
    countFilesOfType a "MVVM" opts "Repository" = 0 ∧
    countFilesOfType a "Clean" opts "Service" = 1 ∧
    countFilesOfType a "Layered" opts "Service" = 1 ∧
    countFilesOfType a "MVC" opts "Service" = 0 ∧
    countFilesOfType a "MVVM" opts "Service" = (if hasBusinessLogic a then 1 else 0) := by
  unfold countFilesOfType migrateModuleFiles cleanArchFiles layeredArchFiles mvcArchFiles
    mvvmArchFiles testFiles generateMVCViews
  by_cases h1 : hasBusinessLogic a <;>
  by_cases h2 : a.businessLogic.databaseOperations.length > 0 <;>
  by_cases h3 : a.moduleType = "Form" <;>
  by_cases h4 : opts.generateTests <;>
    simp [h1, h2, h3, h4, List.filter_append]

/-! ## C6: project graphs and dependency direction -/

theorem string_append_cancel_iff (n a b : String) : n ++ a = n ++ b ↔ a = b := by
  constructor
  · intro h
    have hd := congrArg String.data h
    simp only [String.data_append] at hd
    exact String.ext (List.append_cancel_left hd)
  · intro h; rw [h]

theorem string_append_cancel_beq (n a b : String) : (n ++ a == n ++ b) = (a == b) := by
  by_cases h : a = b
  · rw [h]; simp
  · have : n ++ a ≠ n ++ b := fun hc => h ((string_append_cancel_iff n a b).mp hc)
    simp [h, this]

theorem append_ne_empty (n s : String) (hs : 0 < s.length) : n ++ s ≠ "" := by
  intro hc
  have := congrArg String.length hc
  simp only [String.length_append] at this
  have h0 : ("" : String).length = 0 := rfl
  omega

/-- A microservice project name never collides with the Shared library
dependency. -/
theorem svc_name_ne_shared (n d : String) :
    (n ++ "." ++ d ++ "Service" == n ++ ".Shared") = false := by
  apply beq_eq_false_iff_ne.mpr
  intro hc
  have := congrArg String.length hc
  simp only [String.length_append] at this
  have h1 : ("." : String).length = 1 := rfl
  have h2 : ("Service" : String).length = 7 := rfl
  have h3 : (".Shared" : String).length = 7 := rfl
  omega

/-- The per-style layer ranks used to witness directional correctness. -/
def cleanRank (n d : String) : Nat :=
  if d = n ++ ".Domain" then 0 else if d = n ++ ".Application" then 1
  else if d = n ++ ".Infrastructure" then 2 else if d = n ++ ".Desktop" then 3
  else if d = n ++ ".Web" then 3 else if d = n ++ ".Api" then 4 else 5

def layeredRank (n d : String) : Nat :=
  if d = n ++ ".Data" then 0 else if d = n ++ ".Business" then 1 else 2

def mvcRank (n d : String) : Nat :=
  if d = n ++ ".Models" then 0 else if d = n ++ ".Services" then 1 else 2

def mvvmRank (n d : String) : Nat :=
  if d = n ++ ".Models" then 0 else if d = n ++ ".Services" then 1
  else if d = n ++ ".ViewModels" then 2 else 3

def csgenRank (n d : String) : Nat :=
  if d = n ++ ".Core" then 0 else if d = n ++ ".Data" then 1
  else if d = n ++ ".WinForms" then 2 else 3

def c6Project : VBProjectP :=
  { name := "App", path := "App.vbproj", targetFramework := "net8.0" }

/-- C6 fails on the code as stated: with the default options (their
include-database flag is on by default) and an entity set containing no
data-access-bearing entity at all, the Clean project graph still contains
the Infrastructure subsystem. -/
theorem infrastructure_without_dataaccess :
    hasDataAccess ([] : List VBModuleAnalysisM) = false ∧
    ((generateCleanArchitectureP c6Project [] {}).1.map (fun p => p.name)).contains
      "App.Infrastructure" = true := by
  decide

theorem depsRespect_of_no_dep_named (ps : List (String × List String))
    (rank : String → Nat)
    (h : ∀ p ∈ ps, ∀ d ∈ p.2, ps.any (fun q => q.1 == d) = false) :
    depsRespectRank ps rank = true := by
  rw [depsRespectRank]
  apply List.all_eq_true.mpr
  intro p hp
  apply List.all_eq_true.mpr
  intro d hd
  rw [h p hp d hd]
  rfl

theorem micro_graph_names (vbp : VBProjectP) (mas : List VBModuleAnalysisM)
    (opts : ArchOptions) (q : String × List String)
    (hq : q ∈ projGraph (generateMicroservicesArchitectureP vbp mas opts).1) :
    (q.1 == vbp.name ++ ".Shared") = false := by
  simp only [projGraph, generateMicroservicesArchitectureP, List.map_append,
    List.mem_append, List.mem_map] at hq
  rcases hq with ⟨x, hx, rfl⟩ | hq
  · rcases hx with ⟨dom, hdom, rfl⟩
    exact svc_name_ne_shared vbp.name dom.1
  · simp at hq
    rcases hq with rfl | rfl <;> simp [string_append_cancel_beq]

theorem depsMicro (vbp : VBProjectP) (mas : List VBModuleAnalysisM)
    (opts : ArchOptions) :
    depsRespectRank (projGraph (generateMicroservicesArchitectureP vbp mas opts).1)
      (fun _ => 0) = true := by
  apply depsRespect_of_no_dep_named
  intro p hp d hd
  have hdep : d = vbp.name ++ ".Shared" := by
    simp only [projGraph, generateMicroservicesArchitectureP, List.map_append,
      List.mem_append, List.mem_map] at hp
    rcases hp with ⟨x, hx, rfl⟩ | hp
    · rcases hx with ⟨dom, hdom, rfl⟩
      simpa using hd
    · simp at hp
      rcases hp with rfl | rfl <;> simp at hd
  subst hdep
  apply List.any_eq_false.mpr
  intro q hq
  simp [micro_graph_names vbp mas opts q hq]

theorem cleanShape (vbp : VBProjectP) (mas : List VBModuleAnalysisM)
    (opts : ArchOptions) :
    (generateCleanArchitectureP vbp mas opts).1.map (fun p => p.name) =
      [vbp.name ++ ".Domain", vbp.name ++ ".Application"] ++
      (if opts.includeDatabase || hasDataAccess mas then [vbp.name ++ ".Infrastructure"]
       else []) ++
      [vbp.name ++ "." ++ (if opts.webBased then "Web" else "Desktop")] ++
      (if opts.webBased then [vbp.name ++ ".Api"] else []) ++
      [vbp.name ++ ".Tests.Unit"] := by
  by_cases h1 : opts.includeDatabase <;>
  by_cases h2 : opts.webBased <;>
  by_cases h3 : hasDataAccess mas <;>
    simp [generateCleanArchitectureP, h1, h2, h3]

theorem depsClean (vbp : VBProjectP) (mas : List VBModuleAnalysisM)
    (opts : ArchOptions) :
    depsRespectRank (projGraph (generateCleanArchitectureP vbp mas opts).1)
      (cleanRank vbp.name) = true := by
  have hA := append_ne_empty vbp.name ".Application" (by decide)
  have hI := append_ne_empty vbp.name ".Infrastructure" (by decide)
  have hW : ("." : String) ++ "Web" = ".Web" := rfl
  have hD : ("." : String) ++ "Desktop" = ".Desktop" := rfl
  by_cases h1 : opts.includeDatabase <;>
  by_cases h2 : opts.webBased <;>
  by_cases h3 : hasDataAccess mas <;>
    simp [depsRespectRank, projGraph, generateCleanArchitectureP, cleanRank,
      String.append_assoc, hW, hD, string_append_cancel_iff,
      string_append_cancel_beq, h1, h2, h3, hA, hI]

theorem depsLayered (vbp : VBProjectP) (mas : List VBModuleAnalysisM)
    (opts : ArchOptions) :
    depsRespectRank (projGraph (generateLayeredArchitectureP vbp mas opts).1)
      (layeredRank vbp.name) = true := by
  simp [depsRespectRank, projGraph, generateLayeredArchitectureP, layeredRank,
    string_append_cancel_iff, string_append_cancel_beq]

theorem depsMVC (vbp : VBProjectP) (mas : List VBModuleAnalysisM)
    (opts : ArchOptions) :
    depsRespectRank (projGraph (generateMVCArchitectureP vbp mas opts).1)
      (mvcRank vbp.name) = true := by
  simp [depsRespectRank, projGraph, generateMVCArchitectureP, mvcRank,
    string_append_cancel_iff, string_append_cancel_beq]

theorem depsMVVM (vbp : VBProjectP) (mas : List VBModuleAnalysisM)
    (opts : ArchOptions) :
    depsRespectRank (projGraph (generateMVVMArchitectureP vbp mas opts).1)
      (mvvmRank vbp.name) = true := by
  simp [depsRespectRank, projGraph, generateMVVMArchitectureP, mvvmRank,
    string_append_cancel_iff, string_append_cancel_beq]

theorem depsCsgen (n : String) :
    depsRespectRank (csgenGraph n) (csgenRank n) = true := by
  simp [depsRespectRank, csgenGraph, csgenRank, coreProjectRefs, dataProjectRefs,
    mainProjectRefs, testProjectRefs, string_append_cancel_iff,
    string_append_cancel_beq]

/-- C6 amended: the Clean proposal names exactly Domain, Application,
Infrastructure precisely when the database option is set or data access was
detected (not on data access alone), the UI project, the Api project for web
targets and the unit-test project; and in every architecture style, as well
as in the generator's fixed four-project graph, each declared dependency
that names another generated project names one of strictly smaller layer
rank, so all the reference graphs are acyclic and point downwards. -/
theorem clean_graph_shape_and_acyclic (vbp : VBProjectP)
    (mas : List VBModuleAnalysisM) (opts : ArchOptions) :
    ((generateCleanArchitectureP vbp mas opts).1.map (fun p => p.name) =
      [vbp.name ++ ".Domain", vbp.name ++ ".Application"] ++
      (if opts.includeDatabase || hasDataAccess mas then [vbp.name ++ ".Infrastructure"]
       else []) ++
      [vbp.name ++ "." ++ (if opts.webBased then "Web" else "Desktop")] ++
      (if opts.webBased then [vbp.name ++ ".Api"] else []) ++
      [vbp.name ++ ".Tests.Unit"]) ∧
    depsRespectRank (projGraph (generateCleanArchitectureP vbp mas opts).1)
      (cleanRank vbp.name) = true ∧
    depsRespectRank (projGraph (generateLayeredArchitectureP vbp mas opts).1)
      (layeredRank vbp.name) = true ∧
    depsRespectRank (projGraph (generateMVCArchitectureP vbp mas opts).1)
      (mvcRank vbp.name) = true ∧
    depsRespectRank (projGraph (generateMVVMArchitectureP vbp mas opts).1)
      (mvvmRank vbp.name) = true ∧
    depsRespectRank (projGraph (generateMicroservicesArchitectureP vbp mas opts).1)
      (fun _ => 0) = true ∧
    depsRespectRank (csgenGraph vbp.name) (csgenRank vbp.name) = true :=
  ⟨cleanShape vbp mas opts, depsClean vbp mas opts, depsLayered vbp mas opts,
   depsMVC vbp mas opts, depsMVVM vbp mas opts, depsMicro vbp mas opts,
   depsCsgen vbp.name⟩

theorem lookup_isSome_of_mem_keys (l : List (String × String)) (p : String)
    (h : p ∈ l.map (·.1)) : (l.lookup p).isSome := by
  induction l with
  | nil => simp at h
  | cons a t ih =>
    simp only [List.map_cons, List.mem_cons] at h
    by_cases he : p == a.1
    · simp [List.lookup, he]
    · rcases h with h | h
      · exact absurd (beq_iff_eq.mpr h) (by simpa using he)
      · simp only [List.lookup, he]
        exact ih h

/-- C4: the project-level error contract.  The call fails exactly when no
recognized project-descriptor file exists (given well-formed manifests),
and then with that exact message; an extension outside the known set is a
per-file no-op rather than a failure; and a descriptor-referenced source
file that is missing is recorded as a warning and skipped while the call
still succeeds. -/
theorem parseVBProject_error_contract (env : XmlEnv) (fs : FSx)
    (hx : ∀ s, env.parse s ≠ none) :
    (∀ e, parseVBProjectFS env fs = .error e →
        findProjectFiles fs = [] ∧
        e = "No VB.NET project files found in the specified directory") ∧
    (findProjectFiles fs = [] → parseVBProjectFS env fs =
        .error "No VB.NET project files found in the specified directory") ∧
    (∀ (fs₂ : FSx) (st : ParseState) (p : String),
        toLowerS (extnameS p) ∉ [".vb", ".frm", ".bas", ".cls"] →
        parseVBFileFS fs₂ p st = st) ∧
    parseVBProjectFS env ⟨[("App.vbp", "Form=Main.frm")]⟩ =
      .ok ({ name := "App", path := "App.vbp", targetFramework := "VB6",
             projType := "WinForms" }, ["Form file not found: Main.frm"]) := by
  refine ⟨?_, ?_, ?_, ?_⟩
  · intro e he
    unfold parseVBProjectFS at he
    cases hf : findProjectFiles fs with
    | nil =>
      rw [hf] at he
      simp only [Except.error.injEq] at he
      exact ⟨rfl, he.symm⟩
    | cons pf rest =>
      rw [hf] at he
      have hmem : pf ∈ fs.files.map (·.1) := by
        have h1 : pf ∈ findProjectFiles fs := hf ▸ List.mem_cons_self _ _
        rw [findProjectFiles] at h1
        exact List.mem_of_mem_filter h1
      rcases Option.isSome_iff_exists.mp
        (lookup_isSome_of_mem_keys fs.files pf hmem) with ⟨c, hc⟩
      have hr : readFS fs pf = some c := hc
      have he₂ : (match readFS fs pf with
          | none => (Except.error "ENOENT" : Except String ParseState)
          | some content =>
            if endsWithS pf ".vbproj" = true then parseVBProjFileFS env fs content pf
            else Except.ok (parseVBPFileFS fs content pf)) = Except.error e := he
      rw [hr] at he₂
      simp only [] at he₂
      by_cases hv : endsWithS pf ".vbproj"
      · rw [if_pos (by rw [hv])] at he₂
        unfold parseVBProjFileFS at he₂
        cases hp : env.parse c with
        | none => exact absurd hp (hx c)
        | some d => rw [hp] at he₂; simp at he₂
      · rw [if_neg (by rw [Bool.not_eq_true] at hv; rw [hv]; simp)] at he₂
        simp at he₂
  · intro h
    unfold parseVBProjectFS
    rw [h]
  · intro fs₂ st p hne
    simp only [List.mem_cons, List.not_mem_nil, or_false, not_or] at hne
    obtain ⟨h1, h2, h3, h4⟩ := hne
    unfold parseVBFileFS
    cases readFS fs₂ p with
    | none => rfl
    | some c => simp [h1, h2, h3, h4]
  · rfl

theorem parseVBProject_error_contract_witness :
    parseVBProjectFS ⟨fun _ => some {}⟩ ⟨[]⟩ =
      .error "No VB.NET project files found in the specified directory" :=
  (parseVBProject_error_contract ⟨fun _ => some {}⟩ ⟨[]⟩
    (fun _ h => Option.noConfusion h)).2.1 rfl
